import Mathlib

/-!
Verification development for the regee study-review assistant.

This file shallowly embeds the Intent Classification & Dialogue State
Machine core of the repository:

  * `src/src/intent_classifier.py` (class `IntentClassifier`), and
  * `src/intent_handler.py` (class `SessionState`, class `IntentHandlerManager`).

The classifier is regex-driven, so the embedding starts with an executable
model of the fragment of Python's `re` module that the source uses:
literals, character classes (`\d`, `\w`, `\s`, ranges, negation), `.`,
greedy and lazy counted repetition (`*`, `+`, `?`, `{m,n}`, `*?`),
alternation, capturing and non-capturing groups, word boundaries `\b`,
anchors `^` `$` (no MULTILINE is used by the source), and lookahead
`(?=..)` / `(?!..)`, all with optional IGNORECASE, together with the
API entry points the source calls: `search`, `match`, `finditer`,
`findall` (only its length is consumed by the source), `split` and `sub`.

The matcher is a backtracking matcher in continuation-passing style,
mirroring Python's leftmost search with left-biased alternation and
greedy-first repetition.  A fuel argument bounds the call depth; the
fuel supplied by the API wrappers (`mFuel`) is far above the maximal
call depth (roughly pattern-size * input-length), so it is never
exhausted on the inputs considered here.

Texts are ASCII `List Char` values; positions are absolute `Nat` indices.
-/

namespace Regee

abbrev Str := List Char

/-- Items of a regex character class. -/
inductive ClsItem where
  | ch (c : Char)
  | range (lo hi : Char)
  | digit
  | word
  | space
  deriving Repr, DecidableEq

/-- Regex abstract syntax, a hand translation target for the source's
pattern strings. -/
inductive RE where
  | eps
  | ch (c : Char)
  | dot
  | cls (neg : Bool) (items : List ClsItem)
  | seq (a b : RE)
  | alt (a b : RE)
  | rep (lo : Nat) (hi : Option Nat) (lzy : Bool) (r : RE)
  | grp (idx : Nat) (r : RE)
  | wordB
  | bol
  | eol
  | lookPos (r : RE)
  | lookNeg (r : RE)
  deriving Repr

/-- Case folding comparison: Python `re.IGNORECASE` over ASCII. -/
def charEq (ci : Bool) (a b : Char) : Bool :=
  if ci then a.toLower = b.toLower else a = b

def isSpaceChar (c : Char) : Bool :=
  c = ' ' || c = '\t' || c = '\n' || c = '\r' || c = '\x0b' || c = '\x0c'

def isWordChar (c : Char) : Bool :=
  c.isAlphanum || c = '_'

def clsItemHit (ci : Bool) (c : Char) : ClsItem → Bool
  | .ch a => charEq ci a c
  | .range lo hi =>
      (lo ≤ c && c ≤ hi)
        || (ci && ((lo ≤ c.toLower && c.toLower ≤ hi) || (lo ≤ c.toUpper && c.toUpper ≤ hi)))
  | .digit => c.isDigit
  | .word => isWordChar c
  | .space => isSpaceChar c

def clsHit (ci : Bool) (items : List ClsItem) (c : Char) : Bool :=
  items.any (clsItemHit ci c)

/-- Capture list: `(group index, start, stop)`, most recent first.
Python keeps the last successful capture of each group; lookup of the
first entry for an index below realises that. -/
abbrev Caps := List (Nat × Nat × Nat)

def capLookup (caps : Caps) (i : Nat) : Option (Nat × Nat) :=
  match caps with
  | [] => none
  | (j, a, b) :: rest => if j = i then some (a, b) else capLookup rest i

def isWordOpt : Option Char → Bool
  | none => false
  | some c => isWordChar c

def decHi : Option Nat → Option Nat
  | none => none
  | some n => some (n - 1)

/-- Backtracking matcher.  `pos` is the absolute index, `rest` the suffix
of the subject starting there, `prev` the character just before `pos`.
`k` is the success continuation.  Returns the end position and captures
of the first (Python-order) overall success. -/
def matchRe (ci : Bool) :
    Nat → RE → Nat → Str → Option Char → Caps →
    (Nat → Str → Option Char → Caps → Option (Nat × Caps)) → Option (Nat × Caps)
  | 0, _, _, _, _, _, _ => none
  | fuel + 1, re, pos, rest, prev, caps, k =>
    match re with
    | .eps => k pos rest prev caps
    | .ch c =>
        match rest with
        | [] => none
        | c2 :: rs => if charEq ci c c2 then k (pos + 1) rs (some c2) caps else none
    | .dot =>
        match rest with
        | [] => none
        | c2 :: rs => if c2 = '\n' then none else k (pos + 1) rs (some c2) caps
    | .cls neg items =>
        match rest with
        | [] => none
        | c2 :: rs =>
            if (clsHit ci items c2) = !neg then k (pos + 1) rs (some c2) caps else none
    | .seq a b =>
        matchRe ci fuel a pos rest prev caps
          (fun p r pv c => matchRe ci fuel b p r pv c k)
    | .alt a b =>
        match matchRe ci fuel a pos rest prev caps k with
        | some res => some res
        | none => matchRe ci fuel b pos rest prev caps k
    | .rep lo hi lzy r =>
        if 0 < lo then
          matchRe ci fuel r pos rest prev caps
            (fun p r2 pv c => matchRe ci fuel (.rep (lo - 1) (decHi hi) lzy r) p r2 pv c k)
        else
          match hi with
          | some 0 => k pos rest prev caps
          | _ =>
            let step :=
              matchRe ci fuel r pos rest prev caps
                (fun p r2 pv c =>
                  -- Python stops repeating an unbounded quantifier whose
                  -- body matched the empty string.
                  if hi = none && p = pos then none
                  else matchRe ci fuel (.rep 0 (decHi hi) lzy r) p r2 pv c k)
            if lzy then
              match k pos rest prev caps with
              | some res => some res
              | none => step
            else
              match step with
              | some res => some res
              | none => k pos rest prev caps
    | .grp i r =>
        matchRe ci fuel r pos rest prev caps
          (fun p r2 pv c => k p r2 pv ((i, pos, p) :: c))
    | .wordB =>
        if (isWordOpt prev) ≠ (isWordOpt rest.head?) then k pos rest prev caps else none
    | .bol => if pos = 0 then k pos rest prev caps else none
    | .eol =>
        match rest with
        | [] => k pos rest prev caps
        | ['\n'] => k pos rest prev caps
        | _ => none
    | .lookPos r =>
        match matchRe ci fuel r pos rest prev caps (fun p _ _ c => some (p, c)) with
        | some _ => k pos rest prev caps
        | none => none
    | .lookNeg r =>
        match matchRe ci fuel r pos rest prev caps (fun p _ _ c => some (p, c)) with
        | some _ => none
        | none => k pos rest prev caps

def reNodeSize : RE → Nat
  | .eps | .ch _ | .dot | .cls _ _ | .wordB | .bol | .eol => 1
  | .seq a b | .alt a b => 1 + reNodeSize a + reNodeSize b
  | .rep _ _ _ r | .grp _ r | .lookPos r | .lookNeg r => 1 + reNodeSize r

/-- Fuel policy: comfortably above the maximal call depth of the matcher
on the given subject. -/
def mFuel (re : RE) (len : Nat) : Nat :=
  4 * (reNodeSize re + 4) * (len + 4) + 64

structure RMatch where
  mstart : Nat
  mend : Nat
  caps : Caps
  deriving Repr

/-- Attempt an anchored match at the given state. -/
def tryAt (ci : Bool) (re : RE) (len : Nat) (pos : Nat) (rest : Str) (prev : Option Char) :
    Option RMatch :=
  match matchRe ci (mFuel re len) re pos rest prev [] (fun p _ _ c => some (p, c)) with
  | some (e, caps) => some ⟨pos, e, caps⟩
  | none => none

def searchAux (ci : Bool) (re : RE) (len : Nat) :
    Nat → Str → Option Char → Option RMatch
  | pos, rest, prev =>
    match tryAt ci re len pos rest prev with
    | some m => some m
    | none =>
      match rest with
      | [] => none
      | c :: rs => searchAux ci re len (pos + 1) rs (some c)

/-- `re.search`: leftmost match (anchors keep their absolute meaning). -/
def reSearch (ci : Bool) (re : RE) (s : Str) : Option RMatch :=
  searchAux ci re s.length 0 s none

/-- `re.search` truthiness. -/
def reTest (ci : Bool) (re : RE) (s : Str) : Bool :=
  (reSearch ci re s).isSome

/-- `re.match`: anchored at position 0. -/
def reMatchStart (ci : Bool) (re : RE) (s : Str) : Option RMatch :=
  tryAt ci re s.length 0 s none

def reMatchStartB (ci : Bool) (re : RE) (s : Str) : Bool :=
  (reMatchStart ci re s).isSome

def charAt (s : Str) (i : Nat) : Option Char :=
  (s.drop i).head?

/-- Search for the leftmost match starting at or after `pos`. -/
def searchFrom (ci : Bool) (re : RE) (s : Str) (pos : Nat) : Option RMatch :=
  searchAux ci re s.length pos (s.drop pos)
    (if pos = 0 then none else charAt s (pos - 1))

def findIterAux (ci : Bool) (re : RE) (s : Str) : Nat → Nat → List RMatch
  | 0, _ => []
  | fuel + 1, pos =>
    if pos > s.length then []
    else
      match searchFrom ci re s pos with
      | none => []
      | some m =>
          m :: findIterAux ci re s fuel (if m.mend > m.mstart then m.mend else m.mstart + 1)

/-- `re.finditer`: non-overlapping matches, left to right. -/
def reFindIter (ci : Bool) (re : RE) (s : Str) : List RMatch :=
  findIterAux ci re s (s.length + 2) 0

/-- `len(re.findall(..))`: the source only consumes the count. -/
def reCount (ci : Bool) (re : RE) (s : Str) : Nat :=
  (reFindIter ci re s).length

def slice (s : Str) (a b : Nat) : Str :=
  (s.take b).drop a

/-- `match.group(i)`; `i = 0` is the whole match. -/
def groupOf (s : Str) (m : RMatch) (i : Nat) : Option Str :=
  if i = 0 then some (slice s m.mstart m.mend)
  else (capLookup m.caps i).map (fun ab => slice s ab.1 ab.2)

/-- `match.groups()` for a pattern with `n` groups. -/
def groupsOf (s : Str) (m : RMatch) (n : Nat) : List (Option Str) :=
  (List.range n).map (fun j => groupOf s m (j + 1))

/-- `re.split` (patterns used by the source contain no groups). -/
def reSplit (ci : Bool) (re : RE) (s : Str) : List Str :=
  let ms := reFindIter ci re s
  let rec go (pos : Nat) : List RMatch → List Str
    | [] => [s.drop pos]
    | m :: rest => slice s pos m.mstart :: go m.mend rest
  go 0 ms

/-- `re.sub(pattern, repl, s)` replacing every match. -/
def reSubAll (ci : Bool) (re : RE) (repl : Str) (s : Str) : Str :=
  let ms := reFindIter ci re s
  let rec go (pos : Nat) : List RMatch → Str
    | [] => s.drop pos
    | m :: rest => slice s pos m.mstart ++ repl ++ go m.mend rest
  go 0 ms

end Regee

namespace Regee

/-! ### Pattern construction helpers -/

def seqL : List RE → RE
  | [] => .eps
  | [r] => r
  | r :: rs => .seq r (seqL rs)

def altL : List RE → RE
  | [] => .eps
  | [r] => r
  | r :: rs => .alt r (altL rs)

def rstr (s : String) : RE := seqL (s.data.map RE.ch)

def altW (ws : List String) : RE := altL (ws.map rstr)

/-- The regex piece `.{lo,hi}` (greedy). -/
def dotN (lo hi : Nat) : RE := .rep lo (some hi) false .dot

def wb : RE := .wordB

def clsD : RE := .cls false [.digit]

def clsW : RE := .cls false [.word]

def clsS : RE := .cls false [.space]

def dPlus : RE := .rep 1 none false clsD

def wPlus : RE := .rep 1 none false clsW

def wStar : RE := .rep 0 none false clsW

def sPlus : RE := .rep 1 none false clsS

def sStar : RE := .rep 0 none false clsS

def opt (r : RE) : RE := .rep 0 (some 1) false r

def dotStar : RE := .rep 0 none false .dot

def dotStarLazy : RE := .rep 0 none true .dot

def dotPlus : RE := .rep 1 none false .dot

def apos : Char := Char.ofNat 39

/-- The regex piece `questions?`. -/
def questionsOpt : RE := .seq (rstr "question") (opt (.ch 's'))

/-- The regex piece `multiple.?choice`. -/
def mcDot : RE := seqL [rstr "multiple", opt .dot, rstr "choice"]

/-- The regex piece `free.?text`. -/
def ftDot : RE := seqL [rstr "free", opt .dot, rstr "text"]

/-- The regex piece `open.?ended`. -/
def oeDot : RE := seqL [rstr "open", opt .dot, rstr "ended"]

/-- The regex piece `[^,.!?;]+`. -/
def notPunctPlus : RE :=
  .rep 1 none false (.cls true [.ch ',', .ch '.', .ch '!', .ch '?', .ch ';'])

/-- The regex piece `\w+[-\s]?\w*` (word, optional hyphen or space, word). -/
def wordCompound : RE := seqL [wPlus, opt (.cls false [.ch '-', .space]), wStar]

def maxGroupIdx : RE → Nat
  | .grp i r => max i (maxGroupIdx r)
  | .seq a b | .alt a b => max (maxGroupIdx a) (maxGroupIdx b)
  | .rep _ _ _ r | .lookPos r | .lookNeg r => maxGroupIdx r
  | _ => 0

/-! ### `IntentClassifier.contexts` (source lines 12-29): four domains of
word-boundary marker patterns, in dict insertion order. -/

def contextsTable : List (String × List RE) :=
  [ ("review",
      [ seqL [wb, rstr "review", wb], seqL [wb, rstr "quiz", wb],
        seqL [wb, rstr "test", wb], seqL [wb, rstr "session", wb],
        seqL [wb, rstr "practice", wb], seqL [wb, rstr "question", wb],
        seqL [wb, rstr "difficulty", wb] ]),
    ("speech",
      [ seqL [wb, rstr "speech", wb], seqL [wb, rstr "voice", wb],
        seqL [wb, rstr "talk", wb], seqL [wb, rstr "listen", wb],
        seqL [wb, rstr "microphone", wb], seqL [wb, rstr "speak", wb],
        seqL [wb, rstr "recognition", wb] ]),
    ("document",
      [ seqL [wb, rstr "document", wb], seqL [wb, rstr "file", wb],
        seqL [wb, rstr "pdf", wb], seqL [wb, rstr "pptx", wb],
        seqL [wb, rstr "upload", wb], seqL [wb, rstr "text", wb],
        seqL [wb, rstr "material", wb] ]),
    ("settings",
      [ seqL [wb, rstr "setting", wb], seqL [wb, rstr "option", wb],
        seqL [wb, rstr "configure", wb], seqL [wb, rstr "preferenc", wb],
        seqL [wb, rstr "custom", wb] ]) ]

/-- Bonus patterns of `_determine_context` (source lines 543-550). -/
def bonusReview : RE := seqL [wb, .grp 1 (altW ["ask", "question", "quiz"]), wb]

def bonusSpeech : RE := seqL [wb, .grp 1 (altW ["talk", "hear", "audio", "sound"]), wb]

def bonusDocument : RE := seqL [wb, .grp 1 (altW ["content", "read", "material", "learn"]), wb]

def bonusSettings : RE := seqL [wb, .grp 1 (altW ["change", "adjust", "modify", "set"]), wb]

/-- `out_of_scope_keywords` of `_determine_context` (source lines 553-558). -/
def oosKeywords : List RE :=
  [ seqL [wb, .grp 1 (altW ["news", "weather", "sports", "politics", "economy",
      "stock", "crypto", "bitcoin"]), wb],
    seqL [wb, .grp 1 (altW ["meaning of life", "universe", "philosophy",
      "religion", "beliefs"]), wb],
    seqL [wb, .grp 1 (altW ["tell me about yourself", "who are you",
      "how do you work", "what can you do"]), wb],
    seqL [wb, .grp 1 (altW ["search", "find", "browse", "google", "web",
      "internet"]), wb] ]

/-! ### `IntentClassifier.patterns` (source lines 32-140), in dict insertion
order.  Each Lean value is a hand translation of one pattern string; the
original is quoted (with `\x27` standing for the apostrophe character). -/

-- \b(upload|add|attach|send).{1,20}(document|pdf|file|pptx)\b
def patDocUpload1 : RE :=
  seqL [wb, .grp 1 (altW ["upload", "add", "attach", "send"]), dotN 1 20,
        .grp 2 (altW ["document", "pdf", "file", "pptx"]), wb]

-- \b(document|pdf|file|pptx).{1,20}(upload|add|attach|send)\b
def patDocUpload2 : RE :=
  seqL [wb, .grp 1 (altW ["document", "pdf", "file", "pptx"]), dotN 1 20,
        .grp 2 (altW ["upload", "add", "attach", "send"]), wb]

-- \bI.{1,10}(want|like|need).{1,20}(upload|add).{1,20}(document|pdf|file)\b
def patDocUpload3 : RE :=
  seqL [wb, rstr "I", dotN 1 10, .grp 1 (altW ["want", "like", "need"]), dotN 1 20,
        .grp 2 (altW ["upload", "add"]), dotN 1 20,
        .grp 3 (altW ["document", "pdf", "file"]), wb]

-- \b(start|begin|launch).{1,10}(review|quiz|test|practice|session)\b
def patStartReview1 : RE :=
  seqL [wb, .grp 1 (altW ["start", "begin", "launch"]), dotN 1 10,
        .grp 2 (altW ["review", "quiz", "test", "practice", "session"]), wb]

-- \blet\x27s (start|begin|do).{1,10}(review|quiz|test|practice)\b
def patStartReview2 : RE :=
  seqL [wb, rstr "let", .ch apos, rstr "s ", .grp 1 (altW ["start", "begin", "do"]),
        dotN 1 10, .grp 2 (altW ["review", "quiz", "test", "practice"]), wb]

-- \bI.{1,10}(want|like|ready).{1,10}(start|begin|do).{1,10}(review|quiz|test)\b
def patStartReview3 : RE :=
  seqL [wb, rstr "I", dotN 1 10, .grp 1 (altW ["want", "like", "ready"]), dotN 1 10,
        .grp 2 (altW ["start", "begin", "do"]), dotN 1 10,
        .grp 3 (altW ["review", "quiz", "test"]), wb]

-- \b(stop|end|finish|quit|exit|terminate).{1,10}(review|quiz|test|session|practice)\b
def patStopReview1 : RE :=
  seqL [wb, .grp 1 (altW ["stop", "end", "finish", "quit", "exit", "terminate"]),
        dotN 1 10, .grp 2 (altW ["review", "quiz", "test", "session", "practice"]), wb]

-- \b(cancel|halt).{1,10}(review|quiz|test|session|practice)\b
def patStopReview2 : RE :=
  seqL [wb, .grp 1 (altW ["cancel", "halt"]), dotN 1 10,
        .grp 2 (altW ["review", "quiz", "test", "session", "practice"]), wb]

-- \b(what.{1,10}(status|progress)|how.{1,10}(doing|progressing))\b
def patReviewStatus1 : RE :=
  seqL [wb, .grp 1 (altL
          [ seqL [rstr "what", dotN 1 10, .grp 2 (altW ["status", "progress"])],
            seqL [rstr "how", dotN 1 10, .grp 3 (altW ["doing", "progressing"])] ]), wb]

-- \b(status|progress).{1,10}(review|quiz|test|session)\b
def patReviewStatus2 : RE :=
  seqL [wb, .grp 1 (altW ["status", "progress"]), dotN 1 10,
        .grp 2 (altW ["review", "quiz", "test", "session"]), wb]

-- \bhow.{1,10}(am|are|is|was).{1,10}(doing|performing|scoring)\b
def patReviewStatus3 : RE :=
  seqL [wb, rstr "how", dotN 1 10, .grp 1 (altW ["am", "are", "is", "was"]), dotN 1 10,
        .grp 2 (altW ["doing", "performing", "scoring"]), wb]

-- \b(correct|right|wrong|score|result).{1,10}(answer|question)\b
def patReviewStatus4 : RE :=
  seqL [wb, .grp 1 (altW ["correct", "right", "wrong", "score", "result"]), dotN 1 10,
        .grp 2 (altW ["answer", "question"]), wb]

-- \b(what|show|display|list).{1,15}(settings|options|configuration)\b
def patReviewSettings1 : RE :=
  seqL [wb, .grp 1 (altW ["what", "show", "display", "list"]), dotN 1 15,
        .grp 2 (altW ["settings", "options", "configuration"]), wb]

-- \b(what).{1,10}(is|are).{1,10}(current|available).{1,10}(settings|options)\b
def patReviewSettings2 : RE :=
  seqL [wb, .grp 1 (rstr "what"), dotN 1 10, .grp 2 (altW ["is", "are"]), dotN 1 10,
        .grp 3 (altW ["current", "available"]), dotN 1 10,
        .grp 4 (altW ["settings", "options"]), wb]

-- \bcurrent.{1,10}(settings|options|configuration)\b
def patReviewSettings3 : RE :=
  seqL [wb, rstr "current", dotN 1 10,
        .grp 1 (altW ["settings", "options", "configuration"]), wb]

-- \bsettings.{1,10}(now|current|available)\b
def patReviewSettings4 : RE :=
  seqL [wb, rstr "settings", dotN 1 10, .grp 1 (altW ["now", "current", "available"]), wb]

-- \b(set|change|switch|use).{1,10}(question).{1,10}(type|style|format).{1,10}(to|as).{1,10}(multiple.?choice|free.?text|open.?ended)\b
def patSetQType1 : RE :=
  seqL [wb, .grp 1 (altW ["set", "change", "switch", "use"]), dotN 1 10,
        .grp 2 (rstr "question"), dotN 1 10, .grp 3 (altW ["type", "style", "format"]),
        dotN 1 10, .grp 4 (altW ["to", "as"]), dotN 1 10,
        .grp 5 (altL [mcDot, ftDot, oeDot]), wb]

-- \b(use|do|set).{1,10}(multiple.?choice|free.?text|open.?ended).{1,10}(question|format|style)\b
def patSetQType2 : RE :=
  seqL [wb, .grp 1 (altW ["use", "do", "set"]), dotN 1 10,
        .grp 2 (altL [mcDot, ftDot, oeDot]), dotN 1 10,
        .grp 3 (altW ["question", "format", "style"]), wb]

-- \b(multiple.?choice|free.?text|open.?ended).{1,10}(question|format|style)\b
def patSetQType3 : RE :=
  seqL [wb, .grp 1 (altL [mcDot, ftDot, oeDot]), dotN 1 10,
        .grp 2 (altW ["question", "format", "style"]), wb]

-- \b(question).{1,10}(type|style|format).{1,10}(to|as|:).{1,10}(multiple.?choice|free.?text|open.?ended)\b
def patSetQType4 : RE :=
  seqL [wb, .grp 1 (rstr "question"), dotN 1 10,
        .grp 2 (altW ["type", "style", "format"]), dotN 1 10,
        .grp 3 (altW ["to", "as", ":"]), dotN 1 10,
        .grp 4 (altL [mcDot, ftDot, oeDot]), wb]

end Regee

namespace Regee

-- \b(\d+)\s+questions?\b
def patSetNum1 : RE := seqL [wb, .grp 1 dPlus, sPlus, questionsOpt, wb]

-- \bquestions?\s+(\d+)\b
def patSetNum2 : RE := seqL [wb, questionsOpt, sPlus, .grp 1 dPlus, wb]

-- \b(set|use|do|want|have|give|ask|make).{0,10}(\d+).{0,5}questions?\b
def patSetNum3 : RE :=
  seqL [wb, .grp 1 (altW ["set", "use", "do", "want", "have", "give", "ask", "make"]),
        dotN 0 10, .grp 2 dPlus, dotN 0 5, questionsOpt, wb]

-- \b(set|change|make).{0,10}(number|amount|count).{0,10}questions?.{0,10}(\d+)\b
def patSetNum4 : RE :=
  seqL [wb, .grp 1 (altW ["set", "change", "make"]), dotN 0 10,
        .grp 2 (altW ["number", "amount", "count"]), dotN 0 10, questionsOpt,
        dotN 0 10, .grp 3 dPlus, wb]

-- \bI.{0,10}(want|would like|need).{0,10}(\d+).{0,5}questions?\b
def patSetNum5 : RE :=
  seqL [wb, rstr "I", dotN 0 10, .grp 1 (altW ["want", "would like", "need"]),
        dotN 0 10, .grp 2 dPlus, dotN 0 5, questionsOpt, wb]

-- \b(prepare|create|have|do).{0,5}(\d+).{0,5}questions?\b
def patSetNum6 : RE :=
  seqL [wb, .grp 1 (altW ["prepare", "create", "have", "do"]), dotN 0 5,
        .grp 2 dPlus, dotN 0 5, questionsOpt, wb]

-- \bquestions?.{0,5}(should|will).{0,5}be.{0,5}(\d+)\b
def patSetNum7 : RE :=
  seqL [wb, questionsOpt, dotN 0 5, .grp 1 (altW ["should", "will"]), dotN 0 5,
        rstr "be", dotN 0 5, .grp 2 dPlus, wb]

-- \b(number|amount|count).{1,10}(of)?.{1,5}questions?.{1,10}(\d+)\b
def patSetNum8 : RE :=
  seqL [wb, .grp 1 (altW ["number", "amount", "count"]), dotN 1 10,
        opt (.grp 2 (rstr "of")), dotN 1 5, questionsOpt, dotN 1 10, .grp 3 dPlus, wb]

-- \band.{1,10}(\d+).{1,5}questions?\b
def patSetNum9 : RE :=
  seqL [wb, rstr "and", dotN 1 10, .grp 1 dPlus, dotN 1 5, questionsOpt, wb]

-- \band.{1,10}(number|amount|count).{1,10}(of)?.{1,5}questions?.{1,10}(\d+)\b
def patSetNum10 : RE :=
  seqL [wb, rstr "and", dotN 1 10, .grp 1 (altW ["number", "amount", "count"]),
        dotN 1 10, opt (.grp 2 (rstr "of")), dotN 1 5, questionsOpt, dotN 1 10,
        .grp 3 dPlus, wb]

-- \buse.{1,10}(\d+).{1,5}questions?\b
def patSetNum11 : RE :=
  seqL [wb, rstr "use", dotN 1 10, .grp 1 dPlus, dotN 1 5, questionsOpt, wb]

/-- Alternation of the twenty number words used by the source. -/
def oneToTwenty : RE :=
  altW ["one", "two", "three", "four", "five", "six", "seven", "eight", "nine",
        "ten", "eleven", "twelve", "thirteen", "fourteen", "fifteen", "sixteen",
        "seventeen", "eighteen", "nineteen", "twenty"]

-- (number|amount|count).{1,10}(of)?.{1,5}questions?.{1,10}(one|..|twenty)\b
def patSetNum12 : RE :=
  seqL [.grp 1 (altW ["number", "amount", "count"]), dotN 1 10,
        opt (.grp 2 (rstr "of")), dotN 1 5, questionsOpt, dotN 1 10,
        .grp 3 oneToTwenty, wb]

-- \b(set|change|focus|concentrate).{1,10}(topic|subject).{1,10}(to|on|about)\b
def patSetTopic1 : RE :=
  seqL [wb, .grp 1 (altW ["set", "change", "focus", "concentrate"]), dotN 1 10,
        .grp 2 (altW ["topic", "subject"]), dotN 1 10,
        .grp 3 (altW ["to", "on", "about"]), wb]

-- \b(topic|subject).{1,5}(should|will|must).{1,5}(be|include)\b
def patSetTopic2 : RE :=
  seqL [wb, .grp 1 (altW ["topic", "subject"]), dotN 1 5,
        .grp 2 (altW ["should", "will", "must"]), dotN 1 5,
        .grp 3 (altW ["be", "include"]), wb]

-- \bfocus.{1,10}(on).{1,10}(topic|subject)\b
def patSetTopic3 : RE :=
  seqL [wb, rstr "focus", dotN 1 10, .grp 1 (rstr "on"), dotN 1 10,
        .grp 2 (altW ["topic", "subject"]), wb]

-- \b(topic|subject).{1,10}(to|as|:).{1,15}([^,.!?;]+)\b
def patSetTopic4 : RE :=
  seqL [wb, .grp 1 (altW ["topic", "subject"]), dotN 1 10,
        .grp 2 (altW ["to", "as", ":"]), dotN 1 15, .grp 3 notPunctPlus, wb]

-- \band.{1,10}(topic|subject).{1,10}(to|on|about|as|:).{1,15}([^,.!?;]+)\b
def patSetTopic5 : RE :=
  seqL [wb, rstr "and", dotN 1 10, .grp 1 (altW ["topic", "subject"]), dotN 1 10,
        .grp 2 (altW ["to", "on", "about", "as", ":"]), dotN 1 15,
        .grp 3 notPunctPlus, wb]

-- \bthe.{1,5}(topic|subject).{1,10}(to|on|about|as|:).{1,15}([^,.!?;]+)\b
def patSetTopic6 : RE :=
  seqL [wb, rstr "the", dotN 1 5, .grp 1 (altW ["topic", "subject"]), dotN 1 10,
        .grp 2 (altW ["to", "on", "about", "as", ":"]), dotN 1 15,
        .grp 3 notPunctPlus, wb]

-- \b(set|change|use).{1,10}(difficulty|level).{1,10}(to|as).{1,10}(easy|medium|hard|simple|intermediate|difficult|challenging)\b
def patSetDiff1 : RE :=
  seqL [wb, .grp 1 (altW ["set", "change", "use"]), dotN 1 10,
        .grp 2 (altW ["difficulty", "level"]), dotN 1 10, .grp 3 (altW ["to", "as"]),
        dotN 1 10, .grp 4 (altW ["easy", "medium", "hard", "simple", "intermediate",
          "difficult", "challenging"]), wb]

-- \b(easy|medium|hard|simple|difficult|challenging).{1,10}(difficulty|level|questions)\b
def patSetDiff2 : RE :=
  seqL [wb, .grp 1 (altW ["easy", "medium", "hard", "simple", "difficult",
          "challenging"]), dotN 1 10,
        .grp 2 (altW ["difficulty", "level", "questions"]), wb]

-- \b(make|set).{1,10}(it|questions).{1,10}(easy|medium|hard|simple|difficult|challenging)\b
def patSetDiff3 : RE :=
  seqL [wb, .grp 1 (altW ["make", "set"]), dotN 1 10,
        .grp 2 (altW ["it", "questions"]), dotN 1 10,
        .grp 3 (altW ["easy", "medium", "hard", "simple", "difficult", "challenging"]), wb]

-- \b(difficulty).{1,10}(to|as|:).{1,10}(easy|medium|hard|simple|intermediate|difficult|challenging)\b
def patSetDiff4 : RE :=
  seqL [wb, .grp 1 (rstr "difficulty"), dotN 1 10, .grp 2 (altW ["to", "as", ":"]),
        dotN 1 10, .grp 3 (altW ["easy", "medium", "hard", "simple", "intermediate",
          "difficult", "challenging"]), wb]

-- \band.{1,10}(difficulty|level).{1,10}(to|as|:).{1,10}(easy|medium|hard|simple|intermediate|difficult|challenging)\b
def patSetDiff5 : RE :=
  seqL [wb, rstr "and", dotN 1 10, .grp 1 (altW ["difficulty", "level"]), dotN 1 10,
        .grp 2 (altW ["to", "as", ":"]), dotN 1 10,
        .grp 3 (altW ["easy", "medium", "hard", "simple", "intermediate",
          "difficult", "challenging"]), wb]

-- \b(enable|activate|turn.{1,5}on).{1,10}(speech|voice|microphone|speaking|recognition)\b
def patEnableSpeech1 : RE :=
  seqL [wb, .grp 1 (altL [rstr "enable", rstr "activate",
          seqL [rstr "turn", dotN 1 5, rstr "on"]]), dotN 1 10,
        .grp 2 (altW ["speech", "voice", "microphone", "speaking", "recognition"]), wb]

-- \b(use|start).{1,10}(speech|voice).{1,10}(recognition|input|mode)\b
def patEnableSpeech2 : RE :=
  seqL [wb, .grp 1 (altW ["use", "start"]), dotN 1 10,
        .grp 2 (altW ["speech", "voice"]), dotN 1 10,
        .grp 3 (altW ["recognition", "input", "mode"]), wb]

-- \bI.{1,10}(want|like).{1,10}(speak|talk).{1,10}(to|with|instead).{1,10}(typing|text)\b
def patEnableSpeech3 : RE :=
  seqL [wb, rstr "I", dotN 1 10, .grp 1 (altW ["want", "like"]), dotN 1 10,
        .grp 2 (altW ["speak", "talk"]), dotN 1 10,
        .grp 3 (altW ["to", "with", "instead"]), dotN 1 10,
        .grp 4 (altW ["typing", "text"]), wb]

-- \b(disable|deactivate|turn.{1,5}off).{1,10}(speech|voice|microphone|speaking|recognition)\b
def patDisableSpeech1 : RE :=
  seqL [wb, .grp 1 (altL [rstr "disable", rstr "deactivate",
          seqL [rstr "turn", dotN 1 5, rstr "off"]]), dotN 1 10,
        .grp 2 (altW ["speech", "voice", "microphone", "speaking", "recognition"]), wb]

-- \b(stop|don\x27t).{1,10}(use|listen).{1,10}(speech|voice|microphone)\b
def patDisableSpeech2 : RE :=
  seqL [wb, .grp 1 (altL [rstr "stop", seqL [rstr "don", .ch apos, rstr "t"]]),
        dotN 1 10, .grp 2 (altW ["use", "listen"]), dotN 1 10,
        .grp 3 (altW ["speech", "voice", "microphone"]), wb]

-- \b(type|text).{1,10}(only|instead).{1,10}(speech|voice|talking)\b
def patDisableSpeech3 : RE :=
  seqL [wb, .grp 1 (altW ["type", "text"]), dotN 1 10,
        .grp 2 (altW ["only", "instead"]), dotN 1 10,
        .grp 3 (altW ["speech", "voice", "talking"]), wb]

-- \b(next|continue|proceed|go on|go ahead|move on)\b
def patContinue1 : RE :=
  seqL [wb, .grp 1 (altW ["next", "continue", "proceed", "go on", "go ahead",
          "move on"]), wb]

-- \b(next question|another question|ask another|ask next)\b
def patContinue2 : RE :=
  seqL [wb, .grp 1 (altW ["next question", "another question", "ask another",
          "ask next"]), wb]

-- ^(ok|okay|sure|yes|yep|yeah|y|alright|fine|ready|got it)\b
def patContinue3 : RE :=
  seqL [.bol, .grp 1 (altW ["ok", "okay", "sure", "yes", "yep", "yeah", "y",
          "alright", "fine", "ready", "got it"]), wb]

-- \b(who|what|where|when|why|how).{1,30}(world|universe|life|economy|politics|news|weather)\b
def patOos1 : RE :=
  seqL [wb, .grp 1 (altW ["who", "what", "where", "when", "why", "how"]), dotN 1 30,
        .grp 2 (altW ["world", "universe", "life", "economy", "politics", "news",
          "weather"]), wb]

-- \b(tell|explain|describe).{1,20}(yourself|history|science|math|physics|chemistry|biology)\b
def patOos2 : RE :=
  seqL [wb, .grp 1 (altW ["tell", "explain", "describe"]), dotN 1 20,
        .grp 2 (altW ["yourself", "history", "science", "math", "physics",
          "chemistry", "biology"]), wb]

-- \b(what).{1,5}(is|are).{1,20}(meaning|purpose|goal|objective).{1,10}(life|universe|existence)\b
def patOos3 : RE :=
  seqL [wb, .grp 1 (rstr "what"), dotN 1 5, .grp 2 (altW ["is", "are"]), dotN 1 20,
        .grp 3 (altW ["meaning", "purpose", "goal", "objective"]), dotN 1 10,
        .grp 4 (altW ["life", "universe", "existence"]), wb]

-- \b(browse|search|find|google|look up|navigate).{1,20}(internet|web|online)\b
def patOos4 : RE :=
  seqL [wb, .grp 1 (altW ["browse", "search", "find", "google", "look up",
          "navigate"]), dotN 1 20,
        .grp 2 (altW ["internet", "web", "online"]), wb]

-- \b(write|create|generate).{1,20}(program|app|application|website|code).{1,20}(not|unrelated).{1,20}(document|study|review)\b
def patOos5 : RE :=
  seqL [wb, .grp 1 (altW ["write", "create", "generate"]), dotN 1 20,
        .grp 2 (altW ["program", "app", "application", "website", "code"]), dotN 1 20,
        .grp 3 (altW ["not", "unrelated"]), dotN 1 20,
        .grp 4 (altW ["document", "study", "review"]), wb]

-- \b(analyze|process|examine).{1,20}(data|information|statistics).{1,20}(not|unrelated).{1,20}(document|study|review)\b
def patOos6 : RE :=
  seqL [wb, .grp 1 (altW ["analyze", "process", "examine"]), dotN 1 20,
        .grp 2 (altW ["data", "information", "statistics"]), dotN 1 20,
        .grp 3 (altW ["not", "unrelated"]), dotN 1 20,
        .grp 4 (altW ["document", "study", "review"]), wb]

-- ^\s*\b(help|assist|do something|not sure|confused|lost)\b\s*$
def patUnknown1 : RE :=
  seqL [.bol, sStar, wb, .grp 1 (altW ["help", "assist", "do something",
          "not sure", "confused", "lost"]), wb, sStar, .eol]

-- ^(?!.*\b(review|document|speech|question|topic|difficulty|setting)\b)^\s*\b(what|how|can you|would you|could you)\b.{0,50}$
def patUnknown2 : RE :=
  seqL [.bol,
        .lookNeg (seqL [dotStar, wb, .grp 1 (altW ["review", "document", "speech",
          "question", "topic", "difficulty", "setting"]), wb]),
        .bol, sStar, wb, .grp 2 (altW ["what", "how", "can you", "would you",
          "could you"]), wb, dotN 0 50, .eol]

-- ^(?!.*\b(upload|start|stop|status|setting|question|topic|difficulty|speech)\b)^\s*\b(do|work|function|capability)\b.{0,50}$
def patUnknown3 : RE :=
  seqL [.bol,
        .lookNeg (seqL [dotStar, wb, .grp 1 (altW ["upload", "start", "stop",
          "status", "setting", "question", "topic", "difficulty", "speech"]), wb]),
        .bol, sStar, wb, .grp 2 (altW ["do", "work", "function", "capability"]), wb,
        dotN 0 50, .eol]

/-- `IntentClassifier.patterns`, in dict insertion order (source lines 32-140). -/
def patternsDict : List (String × List RE) :=
  [ ("document_upload", [patDocUpload1, patDocUpload2, patDocUpload3]),
    ("start_review", [patStartReview1, patStartReview2, patStartReview3]),
    ("stop_review", [patStopReview1, patStopReview2]),
    ("review_status", [patReviewStatus1, patReviewStatus2, patReviewStatus3,
      patReviewStatus4]),
    ("review_settings", [patReviewSettings1, patReviewSettings2, patReviewSettings3,
      patReviewSettings4]),
    ("set_question_type", [patSetQType1, patSetQType2, patSetQType3, patSetQType4]),
    ("set_num_questions", [patSetNum1, patSetNum2, patSetNum3, patSetNum4, patSetNum5,
      patSetNum6, patSetNum7, patSetNum8, patSetNum9, patSetNum10, patSetNum11,
      patSetNum12]),
    ("set_topic", [patSetTopic1, patSetTopic2, patSetTopic3, patSetTopic4,
      patSetTopic5, patSetTopic6]),
    ("set_difficulty", [patSetDiff1, patSetDiff2, patSetDiff3, patSetDiff4,
      patSetDiff5]),
    ("enable_speech", [patEnableSpeech1, patEnableSpeech2, patEnableSpeech3]),
    ("disable_speech", [patDisableSpeech1, patDisableSpeech2, patDisableSpeech3]),
    ("continue", [patContinue1, patContinue2, patContinue3]),
    ("out_of_scope", [patOos1, patOos2, patOos3, patOos4, patOos5, patOos6]),
    ("unknown", [patUnknown1, patUnknown2, patUnknown3]) ]

def oosPatterns : List RE := [patOos1, patOos2, patOos3, patOos4, patOos5, patOos6]

def unknownPatterns : List RE := [patUnknown1, patUnknown2, patUnknown3]

end Regee

namespace Regee

/-! ### Python string helpers (ASCII) -/

def toLowerStr (s : Str) : Str := s.map Char.toLower

def stripStr (s : Str) : Str :=
  ((s.dropWhile isSpaceChar).reverse.dropWhile isSpaceChar).reverse

/-- Python `str.isdigit` restricted to ASCII. -/
def isDigitStr (s : Str) : Bool := !s.isEmpty && s.all Char.isDigit

def parseNat (s : Str) : Nat := s.foldl (fun n c => n * 10 + (c.toNat - 48)) 0

/-- Python `str.split(sep)` for a single-character separator (keeps empties). -/
def splitOnChar (sep : Char) : Str → List Str
  | [] => [[]]
  | c :: rest =>
    if c = sep then [] :: splitOnChar sep rest
    else
      match splitOnChar sep rest with
      | h :: t => (c :: h) :: t
      | [] => [[c]]

/-- Python `str.split()` (whitespace runs, no empties). -/
def splitWS (s : Str) : List Str :=
  let p := s.foldl
    (fun (p : List Str × Str) c =>
      if isSpaceChar c then (if p.2.isEmpty then p else (p.1 ++ [p.2], []))
      else (p.1, p.2 ++ [c])) ([], [])
  if p.2.isEmpty then p.1 else p.1 ++ [p.2]

/-- Python `needle in hay` for strings. -/
def isSubstr (needle : Str) : Str → Bool
  | [] => needle.isEmpty
  | c :: rest => needle.isPrefixOf (c :: rest) || isSubstr needle rest

/-- Python dict `m[k] = v` (replace in place, else append). -/
def updateAssoc {α β : Type} [DecidableEq α] (m : List (α × β)) (k : α) (v : β) :
    List (α × β) :=
  match m with
  | [] => [(k, v)]
  | (k2, v2) :: rest =>
    if k2 = k then (k, v) :: rest else (k2, v2) :: updateAssoc rest k v

/-- First key attaining the maximal value (Python `max(d.items(), key=..)[0]`). -/
def maxKeyFirst : List (String × Int) → Option String
  | [] => none
  | (k, v) :: rest =>
    let rec go (k : String) (v : Int) : List (String × Int) → String
      | [] => k
      | (k2, v2) :: r => if v2 > v then go k2 v2 r else go k v r
    some (go k v rest)

/-- First key attaining the maximal Nat value. -/
def maxKeyFirstN : List (String × Nat) → Option String
  | [] => none
  | (k, v) :: rest =>
    let rec go (k : String) (v : Nat) : List (String × Nat) → String
      | [] => k
      | (k2, v2) :: r => if v2 > v then go k2 v2 r else go k v r
    some (go k v rest)

/-- Stable sort by an integer key (Python `sorted(.., key=..)`). -/
def insertStable {α : Type} (key : α → Nat) (x : α) : List α → List α
  | [] => [x]
  | y :: ys => if key y ≤ key x then y :: insertStable key x ys else x :: y :: ys

def stableSortBy {α : Type} (key : α → Nat) (l : List α) : List α :=
  l.foldl (fun acc x => insertStable key x acc) []

/-! ### Classifier result data model

A Python intent dict is modelled as a record with one optional field per
key the source ever stores; an absent key is `none` (`false` for the
`topic_extraction_failed` flag, which the source only ever sets to True). -/

structure IntentData where
  intent : String
  text : Str
  answer : Option Str := none
  num_questions : Option Nat := none
  question_type : Option String := none
  difficulty : Option String := none
  topics : Option (List Str) := none
  topic_extraction_failed : Bool := false
  deriving Repr, DecidableEq

structure ClassifyResult where
  data : IntentData
  additional_intents : List IntentData := []
  deriving Repr, DecidableEq

/-- Python `result.update(d)`: keys present in `d` overwrite. -/
def updateData (base upd : IntentData) : IntentData :=
  { intent := upd.intent
    text := upd.text
    answer := match upd.answer with | some a => some a | none => base.answer
    num_questions := match upd.num_questions with | some n => some n | none => base.num_questions
    question_type := match upd.question_type with | some q => some q | none => base.question_type
    difficulty := match upd.difficulty with | some d => some d | none => base.difficulty
    topics := match upd.topics with | some t => some t | none => base.topics
    topic_extraction_failed := upd.topic_extraction_failed || base.topic_extraction_failed }

/-! ### Inline regexes of the remaining classifier methods -/

-- _check_compound_settings, difficulty (line 317):
-- \b(difficulty|level).{1,10}(to|:|\bas\b).{1,10}(easy|medium|hard|challenging|simple|difficult)
def compDiffRe : RE :=
  seqL [wb, .grp 1 (altW ["difficulty", "level"]), dotN 1 10,
        .grp 2 (altL [rstr "to", rstr ":", seqL [wb, rstr "as", wb]]), dotN 1 10,
        .grp 3 (altW ["easy", "medium", "hard", "challenging", "simple", "difficult"])]

-- \b(easy|simple|beginner)\b  (lines 320 and 809)
def reEasy : RE := seqL [wb, .grp 1 (altW ["easy", "simple", "beginner"]), wb]

-- \b(medium|moderate|intermediate)\b  (lines 322 and 811)
def reMedium : RE := seqL [wb, .grp 1 (altW ["medium", "moderate", "intermediate"]), wb]

-- \b(hard|difficult|challenging|advanced)\b  (lines 324 and 813)
def reHard : RE := seqL [wb, .grp 1 (altW ["hard", "difficult", "challenging",
  "advanced"]), wb]

-- _check_compound_settings, question type (line 335):
-- \b(question|type).{1,15}(to|:|\bas\b).{1,15}(multiple.?choice|free.?text|open.?ended)
def compQTypeRe : RE :=
  seqL [wb, .grp 1 (altW ["question", "type"]), dotN 1 15,
        .grp 2 (altL [rstr "to", rstr ":", seqL [wb, rstr "as", wb]]), dotN 1 15,
        .grp 3 (altL [mcDot, ftDot, oeDot])]

-- \b(multiple.?choice|mc)\b  (lines 338 and 748)
def reMcCheck : RE := seqL [wb, .grp 1 (altL [mcDot, rstr "mc"]), wb]

-- \b(free.?text|open.?ended)\b  (lines 340 and 750)
def reFtCheck : RE := seqL [wb, .grp 1 (altL [ftDot, oeDot]), wb]

-- _check_compound_settings, digit count (line 352):
-- \b(\d+).{1,5}(questions)\b|\b(questions).{1,5}(\d+)\b
def compNumDigitRe : RE :=
  altL [seqL [wb, .grp 1 dPlus, dotN 1 5, .grp 2 (rstr "questions"), wb],
        seqL [wb, .grp 3 (rstr "questions"), dotN 1 5, .grp 4 dPlus, wb]]

-- _check_compound_settings, word count (line 368):
-- \b(\w+[-\s]?\w*).{1,5}(questions)\b|\b(questions).{1,5}(\w+[-\s]?\w*)\b
def compNumWordRe : RE :=
  altL [seqL [wb, .grp 1 wordCompound, dotN 1 5, .grp 2 (rstr "questions"), wb],
        seqL [wb, .grp 3 (rstr "questions"), dotN 1 5, .grp 4 wordCompound, wb]]

-- _check_compound_settings, topic (line 387):
-- \b(topic|subject).{1,10}(to|:|\bon\b|\babout\b).{1,30}
def compTopicRe : RE :=
  seqL [wb, .grp 1 (altW ["topic", "subject"]), dotN 1 10,
        .grp 2 (altL [rstr "to", rstr ":", seqL [wb, rstr "on", wb],
          seqL [wb, rstr "about", wb]]), dotN 1 30]

-- re.sub pattern of line 391 (case sensitive): ^.*?(to|:|\bon\b|\babout\b)\s+
def compTopicSubRe : RE :=
  seqL [.bol, dotStarLazy,
        .grp 1 (altL [rstr "to", rstr ":", seqL [wb, rstr "on", wb],
          seqL [wb, rstr "about", wb]]), sPlus]

-- _check_num_questions digit patterns (lines 449-455)
-- \b(\d+)\s+questions?\b
def cnDigit1 : RE := seqL [wb, .grp 1 dPlus, sPlus, questionsOpt, wb]

-- \b(\d+)\s+q\b
def cnDigit2 : RE := seqL [wb, .grp 1 dPlus, sPlus, .ch 'q', wb]

-- \bquestions?\s+(\d+)\b
def cnDigit3 : RE := seqL [wb, questionsOpt, sPlus, .grp 1 dPlus, wb]

-- \b(set|use|do|want|have).{1,10}(\d+).{1,5}questions?\b
def cnDigit4 : RE :=
  seqL [wb, .grp 1 (altW ["set", "use", "do", "want", "have"]), dotN 1 10,
        .grp 2 dPlus, dotN 1 5, questionsOpt, wb]

-- \b(set|change|make).{0,10}(number|amount|count).{0,10}questions?.{0,10}(to|as|at|of).{0,5}(\d+)\b
def cnDigit5 : RE :=
  seqL [wb, .grp 1 (altW ["set", "change", "make"]), dotN 0 10,
        .grp 2 (altW ["number", "amount", "count"]), dotN 0 10, questionsOpt,
        dotN 0 10, .grp 3 (altW ["to", "as", "at", "of"]), dotN 0 5, .grp 4 dPlus, wb]

def cnDigitPatterns : List RE := [cnDigit1, cnDigit2, cnDigit3, cnDigit4, cnDigit5]

-- _check_num_questions word patterns (lines 469-475)
-- \b(\w+[-\s]?\w*)\s+questions?\b
def cnWord1 : RE := seqL [wb, .grp 1 wordCompound, sPlus, questionsOpt, wb]

-- \b(\w+[-\s]?\w*)\s+q\b
def cnWord2 : RE := seqL [wb, .grp 1 wordCompound, sPlus, .ch 'q', wb]

-- \bquestions?\s+(\w+[-\s]?\w*)\b
def cnWord3 : RE := seqL [wb, questionsOpt, sPlus, .grp 1 wordCompound, wb]

-- \b(set|use|do|want|have).{1,10}(\w+[-\s]?\w*).{1,5}questions?\b
def cnWord4 : RE :=
  seqL [wb, .grp 1 (altW ["set", "use", "do", "want", "have"]), dotN 1 10,
        .grp 2 wordCompound, dotN 1 5, questionsOpt, wb]

-- \b(set|change|make).{0,10}(number|amount|count).{0,10}questions?.{0,10}(to|as|at|of).{0,5}(one|..|twenty)\b
def cnWord5 : RE :=
  seqL [wb, .grp 1 (altW ["set", "change", "make"]), dotN 0 10,
        .grp 2 (altW ["number", "amount", "count"]), dotN 0 10, questionsOpt,
        dotN 0 10, .grp 3 (altW ["to", "as", "at", "of"]), dotN 0 5,
        .grp 4 oneToTwenty, wb]

def cnWordPatterns : List RE := [cnWord1, cnWord2, cnWord3, cnWord4, cnWord5]

-- ^(set|use|do|want|have|to|as|at|of|number|amount|count)$  (line 483, via re.match)
def cnExcludeRe : RE :=
  seqL [.bol, .grp 1 (altW ["set", "use", "do", "want", "have", "to", "as", "at",
    "of", "number", "amount", "count"]), .eol]

-- _split_into_sentences (line 575): [.!?]\s+
def splitSentRe : RE := seqL [.cls false [.ch '.', .ch '!', .ch '?'], sPlus]

-- \b(set|change|make).+\b(and|with)\b  (line 586)
def compoundCmdRe : RE :=
  seqL [wb, .grp 1 (altW ["set", "change", "make"]), dotPlus, wb,
        .grp 2 (altW ["and", "with"]), wb]

-- settings_types marker patterns (lines 590-595)
-- \b(question\s+type|type|format)\b
def stQTypeRe : RE :=
  seqL [wb, .grp 1 (altL [seqL [rstr "question", sPlus, rstr "type"], rstr "type",
    rstr "format"]), wb]

-- \b(difficulty|level)\b
def stDiffRe : RE := seqL [wb, .grp 1 (altW ["difficulty", "level"]), wb]

-- \b(questions|number of questions)\b
def stNumRe : RE :=
  seqL [wb, .grp 1 (altW ["questions", "number of questions"]), wb]

-- \b(topic|subject)\b
def stTopicRe : RE := seqL [wb, .grp 1 (altW ["topic", "subject"]), wb]

def settingsTypes : List (String × RE) :=
  [("question type", stQTypeRe), ("difficulty", stDiffRe),
   ("num_questions", stNumRe), ("topic", stTopicRe)]

-- \b(set|change|use|make)\b  (line 628, via re.match)
def cmdVerbRe : RE := seqL [wb, .grp 1 (altW ["set", "change", "use", "make"]), wb]

-- conjunction patterns (lines 639-643), with positive lookahead
def conj1Re : RE :=
  seqL [sPlus, rstr "and", sPlus,
        .lookPos (altW ["then", "also", "set", "change", "make", "start", "stop",
          "enable", "disable"])]

def conj2Re : RE :=
  seqL [sPlus, rstr "then", sPlus,
        .lookPos (altW ["set", "change", "make", "start", "stop", "enable",
          "disable"])]

def conj3Re : RE :=
  seqL [sStar, .ch ',', sStar,
        .lookPos (seqL [altW ["then", "next", "after that", "afterwards",
          "subsequently", "finally"], sPlus])]

def conjPatterns : List RE := [conj1Re, conj2Re, conj3Re]

-- \b(and|with)\s+([a-z]+)\s+(to|as|:)\s+([a-z]+)  (line 683)
def azPlus : RE := .rep 1 none false (.cls false [.range 'a' 'z'])

def enhancedRe : RE :=
  seqL [wb, .grp 1 (altW ["and", "with"]), sPlus, .grp 2 azPlus, sPlus,
        .grp 3 (altW ["to", "as", ":"]), sPlus, .grp 4 azPlus]

end Regee

namespace Regee

/-! ### `_extract_intent_data` regexes (source lines 739-869) -/

-- digit number patterns (lines 756-763); none carries \b anchors
-- (\d+)\s+questions?
def exDigit1 : RE := seqL [.grp 1 dPlus, sPlus, questionsOpt]

-- questions?\s+(\d+)
def exDigit2 : RE := seqL [questionsOpt, sPlus, .grp 1 dPlus]

-- (set|use|have|want|do).{1,15}(\d+).{1,5}questions?
def exDigit3 : RE :=
  seqL [.grp 1 (altW ["set", "use", "have", "want", "do"]), dotN 1 15,
        .grp 2 dPlus, dotN 1 5, questionsOpt]

-- questions?.{1,15}(be|is|to|as|at|of).{1,5}(\d+)
def exDigit4 : RE :=
  seqL [questionsOpt, dotN 1 15, .grp 1 (altW ["be", "is", "to", "as", "at", "of"]),
        dotN 1 5, .grp 2 dPlus]

-- (number|amount|count).{1,10}(of)?.{1,5}questions?.{1,10}(\d+)
def exDigit5 : RE :=
  seqL [.grp 1 (altW ["number", "amount", "count"]), dotN 1 10,
        opt (.grp 2 (rstr "of")), dotN 1 5, questionsOpt, dotN 1 10, .grp 3 dPlus]

-- and.{1,10}(\d+).{1,5}questions?
def exDigit6 : RE := seqL [rstr "and", dotN 1 10, .grp 1 dPlus, dotN 1 5, questionsOpt]

def exDigitPatterns : List RE := [exDigit1, exDigit2, exDigit3, exDigit4, exDigit5,
  exDigit6]

-- word number patterns (lines 782-789)
-- (\w+)\s+questions?
def exWord1 : RE := seqL [.grp 1 wPlus, sPlus, questionsOpt]

-- questions?\s+(\w+)
def exWord2 : RE := seqL [questionsOpt, sPlus, .grp 1 wPlus]

-- (set|use|have|want|do).{1,15}(\w+[-\s]?\w*).{1,5}questions?
def exWord3 : RE :=
  seqL [.grp 1 (altW ["set", "use", "have", "want", "do"]), dotN 1 15,
        .grp 2 wordCompound, dotN 1 5, questionsOpt]

-- questions?.{1,15}(be|is|to|as|at|of).{1,5}(\w+[-\s]?\w*)
def exWord4 : RE :=
  seqL [questionsOpt, dotN 1 15, .grp 1 (altW ["be", "is", "to", "as", "at", "of"]),
        dotN 1 5, .grp 2 wordCompound]

-- (number|amount|count).{1,10}(of)?.{1,5}questions?.{1,10}(\w+[-\s]?\w*)
def exWord5 : RE :=
  seqL [.grp 1 (altW ["number", "amount", "count"]), dotN 1 10,
        opt (.grp 2 (rstr "of")), dotN 1 5, questionsOpt, dotN 1 10,
        .grp 3 wordCompound]

-- and.{1,10}(\w+[-\s]?\w*).{1,5}questions?
def exWord6 : RE :=
  seqL [rstr "and", dotN 1 10, .grp 1 wordCompound, dotN 1 5, questionsOpt]

def exWordPatterns : List RE := [exWord1, exWord2, exWord3, exWord4, exWord5, exWord6]

-- ^(set|use|have|want|do|be|is|to|as|at|of|number|amount|count)$  (line 797)
def exExcludeRe : RE :=
  seqL [.bol, .grp 1 (altW ["set", "use", "have", "want", "do", "be", "is", "to",
    "as", "at", "of", "number", "amount", "count"]), .eol]

-- topic patterns (lines 820-825); (?:..) groups are non-capturing
-- (?:topic|subject)\s+(?:to|on|about|as|:)\s+([^,.!?;]+)
def exTopic1 : RE :=
  seqL [altW ["topic", "subject"], sPlus, altW ["to", "on", "about", "as", ":"],
        sPlus, .grp 1 notPunctPlus]

-- (?:and|with).*?(?:topic|subject)\s+(?:to|on|about|as|:)\s+([^,.!?;]+)
def exTopic2 : RE :=
  seqL [altW ["and", "with"], dotStarLazy, altW ["topic", "subject"], sPlus,
        altW ["to", "on", "about", "as", ":"], sPlus, .grp 1 notPunctPlus]

-- (?:focus)\s+(?:on)\s+([^,.!?;]+)
def exTopic3 : RE := seqL [rstr "focus", sPlus, rstr "on", sPlus, .grp 1 notPunctPlus]

-- (?:about|regarding|concerning)\s+([^,.!?;]+)
def exTopic4 : RE :=
  seqL [altW ["about", "regarding", "concerning"], sPlus, .grp 1 notPunctPlus]

def exTopicPatterns : List RE := [exTopic1, exTopic2, exTopic3, exTopic4]

-- ,\s*|\s+and\s+  (line 839, via re.split)
def topicSplitRe : RE :=
  altL [seqL [.ch ',', sStar], seqL [sPlus, rstr "and", sPlus]]

/-- The character class `[a-zA-Z0-9]`. -/
def alnumItems : List ClsItem := [.range 'a' 'z', .range 'A' 'Z', .range '0' '9']

-- ^[^a-zA-Z0-9]+|[^a-zA-Z0-9]+$  (line 848, via re.sub, no flags)
def cleanEdgeRe : RE :=
  altL [seqL [.bol, .rep 1 none false (.cls true alnumItems)],
        seqL [.rep 1 none false (.cls true alnumItems), .eol]]

-- ^(the|a|an|is|are|be|to|of)\s+  (line 850, via re.sub, IGNORECASE)
def connectorRe : RE :=
  seqL [.bol, .grp 1 (altW ["the", "a", "an", "is", "are", "be", "to", "of"]), sPlus]

end Regee

namespace Regee

/-! ### `_determine_context` (source lines 530-567) -/

def determineContext (text : Str) : List (String × Int) :=
  let base := contextsTable.map (fun p =>
    let direct : Int := 2 * ((p.2.map (fun r => (reCount true r text : Int))).sum)
    let bonus : Int :=
      if p.1 = "review" then (if reTest true bonusReview text then 1 else 0)
      else if p.1 = "speech" then (if reTest true bonusSpeech text then 1 else 0)
      else if p.1 = "document" then (if reTest true bonusDocument text then 1 else 0)
      else if p.1 = "settings" then (if reTest true bonusSettings text then 1 else 0)
      else 0
    (p.1, direct + bonus))
  if oosKeywords.any (fun r => reTest true r text) then
    base.map (fun p => (p.1, p.2 - 1))
  else base

/-! ### `_word_to_number` (source lines 404-444) -/

def numberWordsTable : List (String × Nat) :=
  [("zero", 0), ("one", 1), ("two", 2), ("three", 3), ("four", 4), ("five", 5),
   ("six", 6), ("seven", 7), ("eight", 8), ("nine", 9), ("ten", 10),
   ("eleven", 11), ("twelve", 12), ("thirteen", 13), ("fourteen", 14),
   ("fifteen", 15), ("sixteen", 16), ("seventeen", 17), ("eighteen", 18),
   ("nineteen", 19), ("twenty", 20), ("thirty", 30), ("forty", 40), ("fifty", 50),
   ("sixty", 60), ("seventy", 70), ("eighty", 80), ("ninety", 90)]

def lookupNumberWord (w : Str) : Option Nat :=
  numberWordsTable.findSome? (fun p => if w = p.1.data then some p.2 else none)

def isTensWord (w : Str) : Bool :=
  ["twenty", "thirty", "forty", "fifty", "sixty", "seventy", "eighty",
   "ninety"].any (fun t => w = t.data)

def wordToNumber (word0 : Str) : Option Nat :=
  let word := toLowerStr (stripStr word0)
  match lookupNumberWord word with
  | some n => some n
  | none =>
    let hyphenResult : Option Nat :=
      if word.contains '-' then
        match splitOnChar '-' word with
        | [p1, p2] =>
          match lookupNumberWord p1, lookupNumberWord p2 with
          | some n1, some n2 => if isTensWord p1 then some (n1 + n2) else none
          | _, _ => none
        | _ => none
      else none
    match hyphenResult with
    | some n => some n
    | none =>
      match splitWS word with
      | [w1, w2] =>
        if isTensWord w1 then
          match lookupNumberWord w1, lookupNumberWord w2 with
          | some n1, some n2 => some (n1 + n2)
          | _, _ => none
        else none
      | _ => none

/-! ### Number extraction loops shared by `_check_num_questions` (lines 446-492)
and `_extract_intent_data` (lines 753-805) -/

/-- First group of the match that is a (nonempty) digit string. -/
def firstDigitGroup (text : Str) (m : RMatch) (n : Nat) : Option Str :=
  (groupsOf text m n).findSome? (fun g? =>
    match g? with
    | some g => if isDigitStr g then some g else none
    | none => none)

def digitFromPatterns (text : Str) : List RE → Option Nat
  | [] => none
  | r :: rs =>
    match reSearch true r text with
    | some m =>
      match firstDigitGroup text m (maxGroupIdx r) with
      | some s => some (parseNat s)
      | none => digitFromPatterns text rs
    | none => digitFromPatterns text rs

def wordFromPatterns (text : Str) (exRe : RE) : List RE → Option Nat
  | [] => none
  | r :: rs =>
    match reSearch true r text with
    | some m =>
      let w? := (groupsOf text m (maxGroupIdx r)).findSome? (fun g? =>
        match g? with
        | some g =>
          if !g.isEmpty && !(reMatchStartB true exRe g) then some g else none
        | none => none)
      match w? with
      | some w =>
        match wordToNumber w with
        | some n => some n
        | none => wordFromPatterns text exRe rs
      | none => wordFromPatterns text exRe rs
    | none => wordFromPatterns text exRe rs

/-- `_check_num_questions` (source lines 446-492). -/
def checkNumQuestions (text : Str) : Option Nat :=
  match digitFromPatterns text cnDigitPatterns with
  | some n => some n
  | none => wordFromPatterns text cnExcludeRe cnWordPatterns

/-! ### `_check_compound_settings` (source lines 306-402) -/

def checkCompoundSettings (text : Str) : List IntentData :=
  let s0 : List IntentData := []
  let s1 :=
    match reSearch true compDiffRe text with
    | some m =>
      let g3 := (groupOf text m 3).getD []
      let d? : Option String :=
        if reTest true reEasy g3 then some "easy"
        else if reTest true reMedium g3 then some "medium"
        else if reTest true reHard g3 then some "hard"
        else none
      match d? with
      | some d => s0 ++ [{intent := "set_difficulty", difficulty := some d, text := text}]
      | none => s0
    | none => s0
  let s2 :=
    match reSearch true compQTypeRe text with
    | some m =>
      let g3 := (groupOf text m 3).getD []
      let q? : Option String :=
        if reTest true reMcCheck g3 then some "multiple-choice"
        else if reTest true reFtCheck g3 then some "free-text"
        else none
      match q? with
      | some q => s1 ++ [{intent := "set_question_type", question_type := some q, text := text}]
      | none => s1
    | none => s1
  let s3 :=
    match reSearch true compNumDigitRe text with
    | some m =>
      match firstDigitGroup text m 4 with
      | some numStr =>
        s2 ++ [{intent := "set_num_questions", num_questions := some (parseNat numStr),
                text := text}]
      | none => s2
    | none =>
      match reSearch true compNumWordRe text with
      | some m =>
        let w? := (groupsOf text m 4).findSome? (fun g? =>
          match g? with
          | some g =>
            if !g.isEmpty && toLowerStr g ≠ "questions".data then some g else none
          | none => none)
        match w? with
        | some w =>
          match wordToNumber w with
          | some n =>
            s2 ++ [{intent := "set_num_questions", num_questions := some n, text := text}]
          | none => s2
        | none => s2
      | none => s2
  let s4 :=
    match reSearch true compTopicRe text with
    | some m =>
      let topicText := (groupOf text m 0).getD []
      let afterTo := stripStr (reSubAll false compTopicSubRe [] topicText)
      if !afterTo.isEmpty && afterTo.length > 1 then
        s3 ++ [{intent := "set_topic", topics := some [afterTo], text := text}]
      else s3
    | none => s3
  s4

/-! ### `_split_into_sentences` (source lines 569-701) -/

def segsGo (sentence : Str) (name : String) : List RMatch → List Str
  | [] => []
  | m :: rest =>
    let endPos :=
      match rest with
      | m2 :: _ => m2.mstart
      | [] =>
        let others := (settingsTypes.filter (fun q => q.1 ≠ name)).filterMap
          (fun q => (reSearch true q.2 (sentence.drop m.mstart)).map
            (fun om => m.mstart + om.mstart))
        match others with
        | [] => sentence.length
        | o :: os => os.foldl Nat.min o
    let seg0 := stripStr (slice sentence m.mstart endPos)
    let seg := if reMatchStartB true cmdVerbRe seg0 then seg0 else ("set ".data ++ seg0)
    seg :: segsGo sentence name rest

def buildSegments (sentence : Str) : List Str :=
  (settingsTypes.map (fun q => segsGo sentence q.1 (reFindIter true q.2 sentence))).flatten

def conjSplitsGo (sentence : Str) (pos : Nat) : List RMatch → List Str
  | [] =>
    if pos < sentence.length then
      let part := stripStr (sentence.drop pos)
      if part.isEmpty then [] else [part]
    else []
  | m :: rest =>
    let pre :=
      if m.mstart > pos then
        let part := stripStr (slice sentence pos m.mstart)
        if part.isEmpty then [] else [part]
      else []
    pre ++ conjSplitsGo sentence m.mend rest

def trySplitConj (sentence : Str) : List RE → Option (List Str)
  | [] => none
  | r :: rs =>
    let ms := reFindIter true r sentence
    if ms.isEmpty then trySplitConj sentence rs
    else
      let splits := conjSplitsGo sentence 0 ms
      if splits.length > 1 then some splits else trySplitConj sentence rs

def splitDetailed (text : Str) : List Str :=
  (reSplit false splitSentRe text).foldl (fun acc sentence =>
    if (stripStr sentence).isEmpty then acc
    else
      let viaConj :=
        match trySplitConj sentence conjPatterns with
        | some splits => splits
        | none => [stripStr sentence]
      if reTest true compoundCmdRe sentence then
        let segs := buildSegments sentence
        if !segs.isEmpty then acc ++ segs else acc ++ viaConj
      else acc ++ viaConj) []

def synthFor (sentence : Str) : List Str :=
  (reFindIter true enhancedRe sentence).filterMap (fun m =>
    let pot := toLowerStr ((groupOf sentence m 2).getD [])
    let v := (groupOf sentence m 4).getD []
    if pot = "difficulty".data ∨ pot = "level".data then
      some ("set difficulty to ".data ++ v)
    else if pot = "type".data ∨ pot = "format".data ∨ pot = "questions".data then
      (if pot = "questions".data then some ("set number of questions to ".data ++ v)
       else some ("set question type to ".data ++ v))
    else none)

def splitIntoSentences (text : Str) : List Str :=
  let detailed := splitDetailed text
  let enhanced := detailed ++ (detailed.map synthFor).flatten
  enhanced.filter (fun s => !(stripStr s).isEmpty)

/-! ### `_match_intent` (source lines 703-737) -/

def matchIntent (text : Str) (dominant : Option String) : Option String :=
  let matched : List (String × Nat) := patternsDict.filterMap (fun p =>
    let c := (p.2.filter (fun r => reTest true r text)).length
    if c > 0 then some (p.1, c) else none)
  if matched.isEmpty then none
  else
    let hasSR := matched.any (fun p => p.1 = "start_review")
    let hasES := matched.any (fun p => p.1 = "enable_speech")
    let matched2 :=
      if matched.length > 1 ∧ dominant.isSome ∧ hasSR ∧ hasES then
        if dominant = some "speech" then matched.filter (fun p => p.1 ≠ "start_review")
        else if dominant = some "review" then matched.filter (fun p => p.1 ≠ "enable_speech")
        else matched
      else matched
    maxKeyFirstN matched2

/-! ### `_extract_intent_data` (source lines 739-869) -/

def firstTopicMatch (text : Str) : Option Str :=
  exTopicPatterns.findSome? (fun r =>
    (reSearch true r text).map (fun m => stripStr ((groupOf text m 1).getD [])))

def cleanTopic (t : Str) : Str :=
  let c1 := stripStr (reSubAll false cleanEdgeRe [] t)
  stripStr (reSubAll true connectorRe [] c1)

def extractTopics (topicMatch : Str) : Option (List Str) :=
  let topics :=
    if isSubstr [','] topicMatch || isSubstr " and ".data topicMatch then
      (reSplit false topicSplitRe topicMatch).filterMap (fun t =>
        let t' := stripStr t
        if t'.isEmpty then none else some t')
    else [topicMatch]
  let cleanTopics := topics.foldl (fun acc t =>
    let ct := cleanTopic t
    if !ct.isEmpty ∧ ct.length > 1 ∧ !(acc.any (fun u => toLowerStr u = toLowerStr ct))
    then acc ++ [ct] else acc) []
  if cleanTopics.isEmpty then none else some cleanTopics

def extractIntentData (text : Str) (intent : String) : IntentData :=
  let base : IntentData := {intent := intent, text := text}
  if intent = "set_question_type" then
    if reTest true reMcCheck text then {base with question_type := some "multiple-choice"}
    else if reTest true reFtCheck text then {base with question_type := some "free-text"}
    else base
  else if intent = "set_num_questions" then
    match digitFromPatterns text exDigitPatterns with
    | some n => {base with num_questions := some n}
    | none =>
      match wordFromPatterns text exExcludeRe exWordPatterns with
      | some n => {base with num_questions := some n}
      | none => base
  else if intent = "set_difficulty" then
    if reTest true reEasy text then {base with difficulty := some "easy"}
    else if reTest true reMedium text then {base with difficulty := some "medium"}
    else if reTest true reHard text then {base with difficulty := some "hard"}
    else base
  else if intent = "set_topic" then
    match firstTopicMatch text with
    | some tm =>
      if tm.isEmpty then {base with topic_extraction_failed := true}
      else
        match extractTopics tm with
        | some ts => {base with topics := some ts}
        | none => {base with topic_extraction_failed := true}
    | none => {base with topic_extraction_failed := true}
  else if intent = "answer" then {base with answer := some text}
  else base

/-! ### `_find_other_intents` (source lines 494-528) -/

def findOtherIntents (text : Str) (excluded : List String) : List IntentData :=
  let sentences := splitIntoSentences text
  sentences.foldl (fun acc sentence =>
    patternsDict.foldl (fun acc2 p =>
      if excluded.contains p.1 then acc2
      else if p.2.any (fun r => reTest true r sentence) then
        (if acc2.any (fun i => i.intent = p.1) then acc2
         else acc2 ++ [extractIntentData sentence p.1])
      else acc2) acc) []

/-! ### `classify` (source lines 142-304) -/

/-- The compound-settings priority table (source lines 195-200). -/
def priorityCompound (intent : String) : Nat :=
  if intent = "set_difficulty" then 1
  else if intent = "set_question_type" then 2
  else if intent = "set_num_questions" then 3
  else if intent = "set_topic" then 4
  else 99

/-- The main priority table (source lines 260-276). -/
def priorityMain (intent : String) : Nat :=
  if intent = "set_difficulty" then 1
  else if intent = "set_question_type" then 1
  else if intent = "set_num_questions" then 1
  else if intent = "set_topic" then 1
  else if intent = "enable_speech" then 2
  else if intent = "disable_speech" then 2
  else if intent = "start_review" then 3
  else if intent = "stop_review" then 3
  else if intent = "document_upload" then 3
  else if intent = "continue" then 3
  else if intent = "review_status" then 4
  else if intent = "review_settings" then 4
  else if intent = "answer" then 5
  else if intent = "unknown" then 6
  else if intent = "out_of_scope" then 7
  else 99

/-- The initial/default classification result (source lines 162-167). -/
def answerDefault (text : Str) : ClassifyResult :=
  ⟨{intent := "answer", text := text, answer := some text}, []⟩

def detectPairs (dominant : Option String) : List Str → List (Str × String)
  | [] => []
  | s :: rest =>
    match matchIntent s dominant with
    | some i => (s, i) :: detectPairs dominant rest
    | none => detectPairs dominant rest

def firstKeyFor (m : List (Str × String)) (intent : String) (dflt : Str) : Str :=
  match m.find? (fun p => p.2 = intent) with
  | some p => p.1
  | none => dflt

def classify (text : Str) : ClassifyResult :=
  let contextScores := determineContext text
  let dominantContext := maxKeyFirst contextScores
  match checkNumQuestions text with
  | some n =>
    ⟨{intent := "set_num_questions", num_questions := some n, text := text},
     findOtherIntents text ["set_num_questions"]⟩
  | none =>
    let compound := checkCompoundSettings text
    if compound.length > 1 then
      match stableSortBy (fun d => priorityCompound d.intent) compound with
      | primary :: restAdd =>
        ⟨primary, restAdd ++ findOtherIntents text (compound.map (fun i => i.intent))⟩
      | [] => answerDefault text
    else
      let sentences := splitIntoSentences text
      let pairs := detectPairs dominantContext sentences
      if pairs.isEmpty then
        if oosPatterns.any (fun r => reTest true r text) then
          ⟨{intent := "out_of_scope", text := text}, []⟩
        else if unknownPatterns.any (fun r => reTest true r text) then
          ⟨{intent := "unknown", text := text}, []⟩
        else answerDefault text
      else
        let simap := pairs.foldl (fun m p => updateAssoc m p.1 p.2) []
        let detected := pairs.map (fun p => p.2)
        match stableSortBy priorityMain detected with
        | [] => answerDefault text
        | primaryIntent :: restIntents =>
          let primarySentence := firstKeyFor simap primaryIntent text
          let primaryData := extractIntentData primarySentence primaryIntent
          let resData := updateData {intent := "answer", text := text, answer := some text}
            primaryData
          let additional := restIntents.foldl (fun acc i =>
            if i ≠ primaryIntent then
              acc ++ [extractIntentData (firstKeyFor simap i text) i]
            else acc) []
          ⟨resData, additional⟩

end Regee

namespace Regee

/-!
### Session state machine (`src/intent_handler.py`)

`SessionState` (lines 7-24) is embedded field by field.  `Question` and
`Evaluation` dictionaries are produced by the collaborators; the handlers
only ever read `question_data['question']`, `evaluation['is_correct']`
and `evaluation['feedback']`, so the embedding reduces them to those
payloads.  Collaborators are optional pure functions (absent = the
manager was constructed with `None`).  The one Python exception the
handlers can raise on their own — an `AttributeError` from calling a
method on a missing attribute / `None` — is modelled with `Except`.

`accuracy` is Python `(correct / total) * 100` computed on floats; it is
modelled exactly in `ℚ`.  The `:.1f` rendering is modelled by `fmt1f`
(round half up; the difference to float rounding is irrelevant to every
statement below, which never inspects these digits).
-/

/-- The apostrophe, as a string (used to build the handlers' reply texts). -/
def ap : String := ⟨[Char.ofNat 39]⟩

structure Question where
  question : String
  deriving Repr, DecidableEq

structure Evaluation where
  is_correct : Bool
  feedback : String
  deriving Repr, DecidableEq

structure Summary where
  correct : Nat
  total : Nat
  accuracy : ℚ
  deriving Repr, DecidableEq

structure SessionStatus where
  correct : Nat
  total : Nat
  remaining : Int
  accuracy : ℚ
  is_reviewing : Bool
  deriving Repr, DecidableEq

/-- A handler reply dictionary; absent keys are `none`. -/
structure Response where
  text : Option String := none
  question : Option Question := none
  session_summary : Option Summary := none
  evaluation : Option Evaluation := none
  session_status : Option SessionStatus := none
  intent : Option String := none
  deriving Repr, DecidableEq

/-- `SessionState.__init__` (source lines 9-24) with its defaults. -/
structure SessionState where
  question_type : String := "multiple-choice"
  num_questions : Nat := 5
  current_topics : List String := []
  difficulty : String := "medium"
  current_question : Option Question := none
  question_history : List (Question × String × Evaluation) := []
  correct_answers : Nat := 0
  total_answered : Nat := 0
  is_reviewing : Bool := false
  documents_loaded : Bool := false
  speech_enabled : Bool := false
  awaiting_feedback : Bool := false
  last_evaluation : Option Evaluation := none
  next_question : Option Question := none
  deriving Repr, DecidableEq

def initialSession : SessionState := {}

/-- The collaborators handed to `IntentHandlerManager.__init__`; `none`
models a `None` argument. -/
structure Collabs where
  question_generator : Option (List String → String → String → Question) := none
  answer_evaluator : Option (Question → String → Evaluation) := none
  document_processor : Bool := true

inductive PyErr where
  | attributeError
  deriving Repr, DecidableEq

def pyCapitalize (s : String) : String :=
  match s.data with
  | [] => ""
  | c :: rest => ⟨c.toUpper :: rest.map Char.toLower⟩

/-- Python `f"{x:.1f}"` on a nonnegative rational (round half up). -/
def fmt1f (q : ℚ) : String :=
  let n : Int := Int.floor (q * 10 + 1 / 2)
  toString (n / 10) ++ "." ++ toString ((n % 10).natAbs)

/-- `handle_document_upload` (source lines 181-190). -/
def handle_document_upload (c : Collabs) (s : SessionState) (_d : IntentData) :
    SessionState × Response :=
  if !c.document_processor then
    (s, { text := some "Document processing is not available." })
  else
    (s, { text := some "To upload documents, drag and drop them to the chat or click the upload button then press enter. "
          intent := some "document_upload" })

/-- `handle_review_settings` (source lines 192-217). -/
def handle_review_settings (s : SessionState) (_d : IntentData) :
    SessionState × Response :=
  let question_type_display :=
    if s.question_type = "multiple-choice" then "Multiple Choice" else "Free Text"
  let difficulty_display := pyCapitalize s.difficulty
  let topics_text :=
    if s.current_topics.isEmpty then "all available topics"
    else String.intercalate ", " s.current_topics
  let msg :=
    "Current review settings:\n\n" ++
    "• Question Type: " ++ question_type_display ++ "\n\n" ++
    "• Number of Questions: " ++ toString s.num_questions ++ "\n\n" ++
    "• Difficulty: " ++ difficulty_display ++ "\n\n" ++
    "• Topics: " ++ topics_text ++ "\n\n" ++
    "• Speech Recognition: " ++ (if s.speech_enabled then "Enabled" else "Disabled")
  let msg :=
    if !s.documents_loaded then
      msg ++ "\n\nNote: No documents have been loaded yet. Please upload a document to start a review."
    else msg
  (s, { text := some msg, intent := some "review_settings" })

/-- `handle_start_review` (source lines 219-248).  Note that
`is_reviewing` is set before the generator is consulted (line 227). -/
def handle_start_review (c : Collabs) (s : SessionState) (_d : IntentData) :
    SessionState × Response :=
  if !s.documents_loaded then
    (s, { text := some "Please upload some documents first so I have material to review with you."
          intent := some "start_review" })
  else
    let s1 := { s with is_reviewing := true }
    match c.question_generator with
    | some gen =>
      let q := gen s.current_topics s.question_type s.difficulty
      ({ s1 with current_question := some q },
       { text := some ("Let" ++ ap ++ "s start the review session.\n\n " ++ q.question)
         question := some q
         intent := some "start_review" })
    | none =>
      (s1, { text := some "Question generation is not available."
             intent := some "start_review" })

/-- `handle_stop_review` (source lines 250-273).  The session's
`current_question` is not touched by this handler. -/
def handle_stop_review (s : SessionState) (_d : IntentData) :
    SessionState × Response :=
  if !s.is_reviewing then
    (s, { text := some ("We" ++ ap ++ "re not currently in a review session.")
          intent := some "stop_review" })
  else
    let s1 := { s with is_reviewing := false }
    let correct : Nat := s.correct_answers
    let total : Nat := s.total_answered
    let accuracy : ℚ := if total > 0 then ((correct : ℚ) / (total : ℚ)) * 100 else 0
    (s1,
     { text := some ("Review session ended. You answered " ++ toString correct ++
         " out of " ++ toString total ++ " questions correctly (" ++ fmt1f accuracy ++ "%).")
       session_summary := some ⟨correct, total, accuracy⟩
       intent := some "stop_review" })

/-- `handle_answer` (source lines 275-352).  When more questions remain,
line 312 calls `self.question_generator.generate_question(..)` without a
`None` check; with no generator configured this is an `AttributeError`. -/
def handle_answer (c : Collabs) (s : SessionState) (d : IntentData) :
    Except PyErr (SessionState × Response) :=
  if !s.is_reviewing then
    .ok (s, { text := some ("We" ++ ap ++ "re not currently in a review session. Would you like to start one?")
              intent := some "answer" })
  else
    match s.current_question with
    | none =>
      .ok (s, { text := some ("I don" ++ ap ++ "t have an active question for you to answer. Let me generate one.")
                intent := some "answer" })
    | some q =>
      let user_answer : String := ⟨d.answer.getD []⟩
      match c.answer_evaluator with
      | none =>
        .ok (s, { text := some "Answer evaluation is not available.", intent := some "answer" })
      | some ev =>
        let evaluation := ev q user_answer
        let s1 := { s with
          total_answered := s.total_answered + 1
          correct_answers := s.correct_answers + (if evaluation.is_correct then 1 else 0)
          question_history := s.question_history ++ [(q, user_answer, evaluation)] }
        if s1.total_answered < s1.num_questions then
          match c.question_generator with
          | none => .error .attributeError
          | some gen =>
            let next_question := gen s.current_topics s.question_type s.difficulty
            let s2 := { s1 with
              next_question := some next_question
              awaiting_feedback := true
              last_evaluation := some evaluation }
            .ok (s2,
              { text := some (evaluation.feedback ++ " \n\nWould you like to continue to the next question?")
                evaluation := some evaluation
                intent := some "answer" })
        else
          let correct : Nat := s1.correct_answers
          let total : Nat := s1.total_answered
          let accuracy : ℚ := if total > 0 then ((correct : ℚ) / (total : ℚ)) * 100 else 0
          let s2 := { s1 with current_question := none, is_reviewing := false }
          .ok (s2,
            { text := some (evaluation.feedback ++ " That completes our review session. You answered " ++
                toString correct ++ " out of " ++ toString total ++ " questions correctly (" ++
                fmt1f accuracy ++ "%).")
              session_summary := some ⟨correct, total, accuracy⟩
              intent := some "answer" })

/-- `handle_continue` (source lines 354-386). -/
def handle_continue (s : SessionState) (_d : IntentData) :
    SessionState × Response :=
  if !s.is_reviewing then
    (s, { text := some ("We" ++ ap ++ "re not currently in a review session. Would you like to start one?")
          intent := some "continue" })
  else if !s.awaiting_feedback then
    (s, { text := some "Please answer the current question first."
          intent := some "continue" })
  else
    let s1 := { s with awaiting_feedback := false }
    match s.next_question with
    | some nq =>
      ({ s1 with current_question := some nq, next_question := none },
       { text := some ("Next question: " ++ nq.question)
         question := some nq
         intent := some "continue" })
    | none =>
      (s1, { text := some ("I don" ++ ap ++ "t have a next question prepared. Let me generate one for you.")
             intent := some "continue" })

/-- `handle_review_status` (source lines 388-415). -/
def handle_review_status (s : SessionState) (_d : IntentData) :
    SessionState × Response :=
  if !s.is_reviewing && s.total_answered = 0 then
    (s, { text := some ("You haven" ++ ap ++ "t started any review sessions yet.")
          intent := some "review_status" })
  else
    let correct : Nat := s.correct_answers
    let total : Nat := s.total_answered
    let remaining : Int :=
      if s.is_reviewing then (s.num_questions : Int) - (total : Int) else 0
    let accuracy : ℚ := if total > 0 then ((correct : ℚ) / (total : ℚ)) * 100 else 0
    let status_text :=
      "You" ++ ap ++ "ve answered " ++ toString correct ++ " out of " ++ toString total ++
      " questions correctly (" ++ fmt1f accuracy ++ "%)."
    let status_text :=
      if s.is_reviewing then
        status_text ++ " There are " ++ toString remaining ++ " questions remaining in this session."
      else status_text
    (s, { text := some status_text
          session_status := some ⟨correct, total, remaining, accuracy, s.is_reviewing⟩
          intent := some "review_status" })

/-- `handle_set_question_type` (source lines 417-437). -/
def handle_set_question_type (s : SessionState) (d : IntentData) :
    SessionState × Response :=
  let question_type := (d.question_type.getD "").toLower
  if question_type ∈ ["multiple-choice", "multiple choice", "mc", "multiplechoice"] then
    ({ s with question_type := "multiple-choice" },
     { text := some ("I" ++ ap ++ "ll use multiple-choice questions for our review.")
       intent := some "set_question_type" })
  else if question_type ∈ ["free-text", "free text", "open", "freetext"] then
    ({ s with question_type := "free-text" },
     { text := some ("I" ++ ap ++ "ll use free-text questions for our review.")
       intent := some "set_question_type" })
  else
    (s, { text := some ("I didn" ++ ap ++ "t understand that question type. I support multiple-choice or free-text questions.")
          intent := some "set_question_type" })

/-- `handle_set_num_questions` (source lines 439-460).  The classifier
always supplies `num_questions` as an integer (or omits it, defaulting
to 0), so the `int(..)`/`ValueError` wrapper never fires. -/
def handle_set_num_questions (s : SessionState) (d : IntentData) :
    SessionState × Response :=
  let num_questions := d.num_questions.getD 0
  if 1 ≤ num_questions ∧ num_questions ≤ 50 then
    ({ s with num_questions := num_questions },
     { text := some ("I" ++ ap ++ "ll prepare " ++ toString num_questions ++ " questions for our review session.")
       intent := some "set_num_questions" })
  else
    (s, { text := some "Please choose a number of questions between 1 and 50."
          intent := some "set_num_questions" })

/-- `handle_set_topic` (source lines 462-489). -/
def handle_set_topic (s : SessionState) (d : IntentData) :
    SessionState × Response :=
  let topics : List String := (d.topics.getD []).map (fun t => (⟨t⟩ : String))
  if d.topic_extraction_failed then
    (s, { text := some ("I couldn" ++ ap ++ "t clearly identify the topics you want to focus on. Please specify them using one of these formats:\n\n" ++
            "• Set topic to: machine learning, python\n" ++
            "• Change topic to neural networks\n" ++
            "• Focus on the topic of data science\n" ++
            "• Set the subject to: history and geography")
          intent := some "set_topic" })
  else if topics.isEmpty then
    ({ s with current_topics := [] },
     { text := some ("I" ++ ap ++ "ll cover all available topics in the documents during our review.")
       intent := some "set_topic" })
  else
    ({ s with current_topics := topics },
     { text := some ("I" ++ ap ++ "ll focus our review on: " ++ String.intercalate ", " topics ++ ".")
       intent := some "set_topic" })

/-- `handle_set_difficulty` (source lines 491-517). -/
def handle_set_difficulty (s : SessionState) (d : IntentData) :
    SessionState × Response :=
  let difficulty := (d.difficulty.getD "").toLower
  if difficulty ∈ ["easy", "beginner", "simple"] then
    ({ s with difficulty := "easy" },
     { text := some ("I" ++ ap ++ "ll set the difficulty to easy for our review.")
       intent := some "set_difficulty" })
  else if difficulty ∈ ["medium", "moderate", "intermediate"] then
    ({ s with difficulty := "medium" },
     { text := some ("I" ++ ap ++ "ll set the difficulty to medium for our review.")
       intent := some "set_difficulty" })
  else if difficulty ∈ ["hard", "difficult", "challenging", "advanced"] then
    ({ s with difficulty := "hard" },
     { text := some ("I" ++ ap ++ "ll set the difficulty to hard for our review.")
       intent := some "set_difficulty" })
  else
    (s, { text := some ("I didn" ++ ap ++ "t understand that difficulty level. I support easy, medium, or hard difficulty.")
          intent := some "set_difficulty" })

/-- `handle_enable_speech` (source lines 519-525). -/
def handle_enable_speech (s : SessionState) (_d : IntentData) :
    SessionState × Response :=
  ({ s with speech_enabled := true },
   { text := some ("Speech interaction is now enabled. I" ++ ap ++ "ll listen for your voice and respond with speech.")
     intent := some "enable_speech" })

/-- `handle_disable_speech` (source lines 527-533). -/
def handle_disable_speech (s : SessionState) (_d : IntentData) :
    SessionState × Response :=
  ({ s with speech_enabled := false },
   { text := some ("Speech interaction is now disabled. We" ++ ap ++ "ll continue with text only.")
     intent := some "disable_speech" })

/-- `handle_out_of_scope` (source lines 535-551); present on the class
but absent from the dispatch table. -/
def handle_out_of_scope (s : SessionState) (_d : IntentData) :
    SessionState × Response :=
  (s, { text := some ("I" ++ ap ++ "m a study assistant focused on helping you review document contents. " ++
          "I can help you with:\n\n" ++
          "• Uploading documents\n" ++
          "• Generating review questions\n" ++
          "• Testing your knowledge\n" ++
          "• Adjusting review settings\n\n" ++
          "What documents would you like to review?")
        intent := some "out_of_scope" })

/-- `handle_unknown_intent` (source lines 553-559). -/
def handle_unknown_intent (s : SessionState) (_d : IntentData) :
    SessionState × Response :=
  (s, { text := some ("I" ++ ap ++ "m not sure what you want to do. You can upload documents, start/stop a review, " ++
          "answer questions, check your status, or adjust the review settings.")
        intent := some "unknown" })

/-- The `self.handlers` dispatch table (source lines 52-67); look-ups of
unlisted intents (including `out_of_scope`) fall back to
`handle_unknown_intent` via `dict.get` (line 88). -/
def dispatch (c : Collabs) (s : SessionState) (intentType : String) (d : IntentData) :
    Except PyErr (SessionState × Response) :=
  if intentType = "document_upload" then .ok (handle_document_upload c s d)
  else if intentType = "start_review" then .ok (handle_start_review c s d)
  else if intentType = "stop_review" then .ok (handle_stop_review s d)
  else if intentType = "answer" then handle_answer c s d
  else if intentType = "review_status" then .ok (handle_review_status s d)
  else if intentType = "review_settings" then .ok (handle_review_settings s d)
  else if intentType = "set_question_type" then .ok (handle_set_question_type s d)
  else if intentType = "set_num_questions" then .ok (handle_set_num_questions s d)
  else if intentType = "set_topic" then .ok (handle_set_topic s d)
  else if intentType = "set_difficulty" then .ok (handle_set_difficulty s d)
  else if intentType = "enable_speech" then .ok (handle_enable_speech s d)
  else if intentType = "disable_speech" then .ok (handle_disable_speech s d)
  else if intentType = "continue" then .ok (handle_continue s d)
  else .ok (handle_unknown_intent s d)

/-- `_combine_responses` (source lines 136-179). -/
def combineResponses (responses : List Response) : Response :=
  match responses with
  | [] => { text := some ("I" ++ ap ++ "m not sure how to respond.") }
  | [r] => r
  | r0 :: _ =>
    let texts := responses.filterMap (fun r => r.text)
    let combined := { r0 with text := some (String.intercalate " " texts) }
    let combined :=
      match responses.findSome? (fun r => r.question) with
      | some q => { combined with question := some q }
      | none => combined
    let combined :=
      match responses.findSome? (fun r => r.session_summary) with
      | some ss => { combined with session_summary := some ss }
      | none => combined
    if responses.any (fun r => r.intent = some "start_review") then
      match responses.findSome? (fun r =>
          if r.intent = some "start_review" then r.question else none) with
      | some q => { combined with question := some q }
      | none => combined
    else combined

def runAdditional (c : Collabs) :
    SessionState → List Response → List IntentData →
    Except PyErr (SessionState × List Response)
  | s, acc, [] => .ok (s, acc)
  | s, acc, d :: rest =>
    match dispatch c s d.intent d with
    | .error e => .error e
    | .ok (s2, r) => runAdditional c s2 (acc ++ [r]) rest

/-- `handle_intent` (source lines 69-111).  `_update_processing_state`
only touches UI (streamlit) state, never the session, and is dropped.
After combining, line 108 reads `self.tts_system`; `__init__` (line 48)
assigns `self.text_to_speech` and never `tts_system`, so the attribute
access raises `AttributeError` whenever `speech_enabled` is true. -/
def handleIntent (c : Collabs) (s : SessionState) (intentType : String)
    (cr : ClassifyResult) : Except PyErr (SessionState × Response) :=
  match dispatch c s intentType cr.data with
  | .error e => .error e
  | .ok (s1, r1) =>
    match runAdditional c s1 [r1] cr.additional_intents with
    | .error e => .error e
    | .ok (sf, rs) =>
      let combined := combineResponses rs
      if sf.speech_enabled then .error .attributeError
      else .ok (sf, combined)

end Regee

namespace Regee

/-! ### Concrete fixtures used by witnesses and counterexamples -/

/-- A deterministic stand-in question generator. -/
def gen0 : List String → String → String → Question := fun _ _ _ => ⟨"What is 2+2?"⟩

/-- A deterministic stand-in answer evaluator. -/
def ev0 : Question → String → Evaluation := fun _ _ => ⟨true, "Correct!"⟩

def collabs0 : Collabs := { question_generator := some gen0, answer_evaluator := some ev0 }

/-- A session right after the external document pipeline reported a load
(`app.py` sets `session.documents_loaded = True`). -/
def loadedSession : SessionState := { initialSession with documents_loaded := true }

def dAnswer : IntentData := { intent := "answer", text := ("x").data, answer := some ("x").data }

def dContinue : IntentData := { intent := "continue", text := ("continue").data }

def dEmpty : IntentData := { intent := "unknown", text := [] }

/-! ### C1 — two-step feedback protocol -/

/-- C1.  In a reviewing session with a current question, both
collaborators configured and `total_answered + 1 < num_questions`,
handling an `answer` intent increments `total_answered`, stores a newly
generated question in `next_question`, leaves `current_question`
unchanged, sets `awaiting_feedback`, and replies with feedback text but
no question payload; the subsequent `continue` intent promotes
`next_question` into `current_question`, clears `next_question` and
`awaiting_feedback`, and returns that question. -/
theorem c1_two_step_feedback_protocol
    (gen : List String → String → String → Question)
    (ev : Question → String → Evaluation) (dp : Bool)
    (s : SessionState) (q : Question) (d dc : IntentData)
    (h1 : s.is_reviewing = true) (h2 : s.current_question = some q)
    (h3 : s.total_answered + 1 < s.num_questions) :
    ∃ post resp,
      handle_answer ⟨some gen, some ev, dp⟩ s d = .ok (post, resp) ∧
      post.total_answered = s.total_answered + 1 ∧
      post.next_question = some (gen s.current_topics s.question_type s.difficulty) ∧
      post.current_question = some q ∧
      post.awaiting_feedback = true ∧
      resp.question = none ∧
      resp.text = some ((ev q ⟨d.answer.getD []⟩).feedback ++
        " \n\nWould you like to continue to the next question?") ∧
      ∃ post2 resp2,
        handle_continue post dc = (post2, resp2) ∧
        post2.current_question = post.next_question ∧
        post2.next_question = none ∧
        post2.awaiting_feedback = false ∧
        resp2.question = post.next_question := by
  have key : handle_answer ⟨some gen, some ev, dp⟩ s d = .ok
      ({ s with
          total_answered := s.total_answered + 1
          correct_answers := s.correct_answers +
            (if (ev q ⟨d.answer.getD []⟩).is_correct then 1 else 0)
          question_history := s.question_history ++
            [(q, ⟨d.answer.getD []⟩, ev q ⟨d.answer.getD []⟩)]
          next_question := some (gen s.current_topics s.question_type s.difficulty)
          awaiting_feedback := true
          last_evaluation := some (ev q ⟨d.answer.getD []⟩) },
       { text := some ((ev q ⟨d.answer.getD []⟩).feedback ++
           " \n\nWould you like to continue to the next question?")
         evaluation := some (ev q ⟨d.answer.getD []⟩)
         intent := some "answer" }) := by
    simp [handle_answer, h1, h2, h3]
  have key2 : handle_continue
      { s with
          total_answered := s.total_answered + 1
          correct_answers := s.correct_answers +
            (if (ev q ⟨d.answer.getD []⟩).is_correct then 1 else 0)
          question_history := s.question_history ++
            [(q, ⟨d.answer.getD []⟩, ev q ⟨d.answer.getD []⟩)]
          next_question := some (gen s.current_topics s.question_type s.difficulty)
          awaiting_feedback := true
          last_evaluation := some (ev q ⟨d.answer.getD []⟩) } dc =
      ({ s with
          total_answered := s.total_answered + 1
          correct_answers := s.correct_answers +
            (if (ev q ⟨d.answer.getD []⟩).is_correct then 1 else 0)
          question_history := s.question_history ++
            [(q, ⟨d.answer.getD []⟩, ev q ⟨d.answer.getD []⟩)]
          current_question := some (gen s.current_topics s.question_type s.difficulty)
          next_question := none
          awaiting_feedback := false
          last_evaluation := some (ev q ⟨d.answer.getD []⟩) },
       { text := some ("Next question: " ++
           (gen s.current_topics s.question_type s.difficulty).question)
         question := some (gen s.current_topics s.question_type s.difficulty)
         intent := some "continue" }) := by
    simp [handle_continue, h1]
  exact ⟨_, _, key, rfl, rfl, h2, rfl, rfl, rfl, _, _, key2, rfl, rfl, rfl, rfl⟩

/-- Witness for C1 at a concrete session. -/
theorem c1_two_step_feedback_protocol_witness :
    ∃ post resp,
      handle_answer ⟨some gen0, some ev0, true⟩
        { loadedSession with is_reviewing := true, current_question := some ⟨"Q1"⟩ }
        dAnswer = .ok (post, resp) ∧
      post.total_answered = 0 + 1 ∧
      post.next_question = some (gen0 [] "multiple-choice" "medium") ∧
      post.current_question = some ⟨"Q1"⟩ ∧
      post.awaiting_feedback = true ∧
      resp.question = none ∧
      resp.text = some ((ev0 ⟨"Q1"⟩ "x").feedback ++
        " \n\nWould you like to continue to the next question?") ∧
      ∃ post2 resp2,
        handle_continue post dContinue = (post2, resp2) ∧
        post2.current_question = post.next_question ∧
        post2.next_question = none ∧
        post2.awaiting_feedback = false ∧
        resp2.question = post.next_question :=
  c1_two_step_feedback_protocol gen0 ev0 true
    { loadedSession with is_reviewing := true, current_question := some ⟨"Q1"⟩ }
    ⟨"Q1"⟩ dAnswer dContinue rfl rfl (by decide)

end Regee

namespace Regee

/-! ### C2 — `handle_intent` and the `tts_system` attribute -/

/-- C2 theorem (the code contradicts the claim).  Whatever the session,
the collaborators and the intent data (with no additional intents, so
that the final speech flag is the one `handle_enable_speech` just set),
routing an `enable_speech` intent through `handle_intent` raises an
`AttributeError`: line 108 reads `self.tts_system`, an attribute
`__init__` never assigns, as soon as `speech_enabled` is true. -/
theorem c2_enable_speech_attribute_error (c : Collabs) (s : SessionState)
    (cr : ClassifyResult) (h : cr.additional_intents = []) :
    handleIntent c s "enable_speech" cr = .error .attributeError := by
  simp [handleIntent, dispatch, handle_enable_speech, h, runAdditional, combineResponses]

/-- Witness for C2: the crash at the concrete failing input (fresh
session, bare `enable_speech` intent). -/
theorem c2_enable_speech_attribute_error_witness :
    handleIntent {} initialSession "enable_speech"
      ⟨{ intent := "enable_speech", text := ("enable speech").data }, []⟩ =
      .error .attributeError :=
  c2_enable_speech_attribute_error {} initialSession
    ⟨{ intent := "enable_speech", text := ("enable speech").data }, []⟩ rfl

/-! ### C3 — `stop_review` does not clear `current_question` -/

def c3Pre : SessionState :=
  { loadedSession with
      is_reviewing := true
      current_question := some ⟨"Q"⟩
      total_answered := 2
      correct_answers := 1 }

def c3Data : IntentData := { intent := "stop_review", text := ("stop the review").data }

/-- C3 counterexample.  From a reviewing session with an active
question, `handle_stop_review` clears `is_reviewing` and returns a
`session_summary`, but `current_question` is left set — so the claimed
`current_question = null` postcondition (and with it the invariant
`is_reviewing = false ⇒ current_question = null`) fails right after the
handler returns. -/
theorem c3_stop_review_counterexample :
    (handle_stop_review c3Pre c3Data).1.is_reviewing = false ∧
    (handle_stop_review c3Pre c3Data).2.session_summary.isSome = true ∧
    (handle_stop_review c3Pre c3Data).1.current_question = some ⟨"Q"⟩ ∧
    ¬ (handle_stop_review c3Pre c3Data).1.current_question = none := by
  refine ⟨rfl, rfl, rfl, ?_⟩
  intro h
  exact Option.noConfusion (rfl.trans h : some (⟨"Q"⟩ : Question) = none)

/-- C3 amended.  For every reviewing session, `handle_stop_review` sets
`is_reviewing := false` and replies with a `session_summary`, but leaves
`current_question` (and every other field) unchanged. -/
theorem c3_stop_review_amended (s : SessionState) (d : IntentData)
    (h : s.is_reviewing = true) :
    handle_stop_review s d =
      ({ s with is_reviewing := false },
       { text := some ("Review session ended. You answered " ++
           toString s.correct_answers ++ " out of " ++ toString s.total_answered ++
           " questions correctly (" ++
           fmt1f (if s.total_answered > 0 then
             ((s.correct_answers : ℚ) / (s.total_answered : ℚ)) * 100 else 0) ++ "%).")
         session_summary := some ⟨s.correct_answers, s.total_answered,
           (if s.total_answered > 0 then
             ((s.correct_answers : ℚ) / (s.total_answered : ℚ)) * 100 else 0)⟩
         intent := some "stop_review" }) ∧
    ({ s with is_reviewing := false } : SessionState).current_question =
      s.current_question := by
  constructor
  · simp [handle_stop_review, h]
  · rfl

/-- Witness for C3 amended, at the concrete reviewing session. -/
theorem c3_stop_review_amended_witness :
    handle_stop_review c3Pre c3Data =
      ({ c3Pre with is_reviewing := false },
       { text := some ("Review session ended. You answered " ++
           toString c3Pre.correct_answers ++ " out of " ++ toString c3Pre.total_answered ++
           " questions correctly (" ++
           fmt1f (if c3Pre.total_answered > 0 then
             ((c3Pre.correct_answers : ℚ) / (c3Pre.total_answered : ℚ)) * 100 else 0) ++ "%).")
         session_summary := some ⟨c3Pre.correct_answers, c3Pre.total_answered,
           (if c3Pre.total_answered > 0 then
             ((c3Pre.correct_answers : ℚ) / (c3Pre.total_answered : ℚ)) * 100 else 0)⟩
         intent := some "stop_review" }) ∧
    ({ c3Pre with is_reviewing := false } : SessionState).current_question =
      c3Pre.current_question :=
  c3_stop_review_amended c3Pre c3Data rfl

/-! ### C4 — `answer` with no question generator raises -/

/-- C4 theorem (the code contradicts the claim).  While reviewing with
an active question, an answer evaluator but no question generator, and
`total_answered + 1 < num_questions`, `handle_answer` does not return a
"feature unavailable" reply: line 312 calls
`self.question_generator.generate_question(..)` on `None`, an
`AttributeError`. -/
theorem c4_answer_missing_generator_raises
    (ev : Question → String → Evaluation) (dp : Bool)
    (s : SessionState) (q : Question) (d : IntentData)
    (h1 : s.is_reviewing = true) (h2 : s.current_question = some q)
    (h3 : s.total_answered + 1 < s.num_questions) :
    handle_answer ⟨none, some ev, dp⟩ s d = .error .attributeError := by
  simp [handle_answer, h1, h2, h3]

/-- Witness for C4 at the concrete failing input. -/
theorem c4_answer_missing_generator_raises_witness :
    handle_answer ⟨none, some ev0, true⟩
      { loadedSession with is_reviewing := true, current_question := some ⟨"Q1"⟩ }
      dAnswer = .error .attributeError :=
  c4_answer_missing_generator_raises ev0 true
    { loadedSession with is_reviewing := true, current_question := some ⟨"Q1"⟩ }
    ⟨"Q1"⟩ dAnswer rfl rfl (by decide)

end Regee

namespace Regee

/-! ### C8 — `total_answered ≤ num_questions` is not an invariant -/

/-- Unwrap an `Except`-returning handler step for trace building; every
step of the C8 trace is in fact `.ok`. -/
def stepOk (r : Except PyErr (SessionState × Response)) : SessionState :=
  match r with
  | .ok (s, _) => s
  | .error _ => initialSession

def c8s1 : SessionState :=
  (handle_set_num_questions loadedSession
    { intent := "set_num_questions", text := ("set 3 questions").data,
      num_questions := some 3 }).1

def c8s2 : SessionState :=
  (handle_start_review collabs0 c8s1
    { intent := "start_review", text := ("start the review").data }).1

def c8s3 : SessionState := stepOk (handle_answer collabs0 c8s2 dAnswer)

def c8s4 : SessionState := (handle_continue c8s3 dContinue).1

def c8s5 : SessionState := stepOk (handle_answer collabs0 c8s4 dAnswer)

/-- The state after a mid-session `set_num_questions` with the in-range
value 1, while two answers have already been recorded. -/
def c8s6 : SessionState :=
  (handle_set_num_questions c8s5
    { intent := "set_num_questions", text := ("set 1 question").data,
      num_questions := some 1 }).1

/-- C8 counterexample.  The handler trace
set_num_questions 3 → start_review → answer → continue → answer →
set_num_questions 1 (all from the initial session with documents
loaded) reaches a state that is still reviewing yet has
`total_answered = 2 > 1 = num_questions`: the invariant is not preserved
by `handle_set_num_questions`, which accepts any value in `[1, 50]`
without comparing it to `total_answered`. -/
theorem c8_invariant_counterexample :
    c8s6.is_reviewing = true ∧
    c8s6.total_answered = 2 ∧
    c8s6.num_questions = 1 ∧
    ¬ c8s6.total_answered ≤ c8s6.num_questions := by
  refine ⟨rfl, rfl, rfl, ?_⟩
  decide

/-- C8 amended.  `handle_answer` itself re-establishes the bound:
whenever it actually evaluates an answer (reviewing, active question,
both collaborators configured), its post-state satisfies
`is_reviewing = true → total_answered ≤ num_questions` — but
`handle_set_num_questions` does not preserve the bound (see the
counterexample trace). -/
theorem c8_answer_reestablishes_bound
    (gen : List String → String → String → Question)
    (ev : Question → String → Evaluation) (dp : Bool)
    (s : SessionState) (q : Question) (d : IntentData)
    (h1 : s.is_reviewing = true) (h2 : s.current_question = some q) :
    ∃ post resp,
      handle_answer ⟨some gen, some ev, dp⟩ s d = .ok (post, resp) ∧
      (post.is_reviewing = true → post.total_answered ≤ post.num_questions) := by
  by_cases h3 : s.total_answered + 1 < s.num_questions
  · refine ⟨{ s with
        total_answered := s.total_answered + 1
        correct_answers := s.correct_answers +
          (if (ev q ⟨d.answer.getD []⟩).is_correct then 1 else 0)
        question_history := s.question_history ++
          [(q, ⟨d.answer.getD []⟩, ev q ⟨d.answer.getD []⟩)]
        next_question := some (gen s.current_topics s.question_type s.difficulty)
        awaiting_feedback := true
        last_evaluation := some (ev q ⟨d.answer.getD []⟩) },
      { text := some ((ev q ⟨d.answer.getD []⟩).feedback ++
          " \n\nWould you like to continue to the next question?")
        evaluation := some (ev q ⟨d.answer.getD []⟩)
        intent := some "answer" }, ?_, ?_⟩
    · simp [handle_answer, h1, h2, h3]
    · intro _
      exact Nat.le_of_lt h3
  · refine ⟨{ s with
        total_answered := s.total_answered + 1
        correct_answers := s.correct_answers +
          (if (ev q ⟨d.answer.getD []⟩).is_correct then 1 else 0)
        question_history := s.question_history ++
          [(q, ⟨d.answer.getD []⟩, ev q ⟨d.answer.getD []⟩)]
        current_question := none
        is_reviewing := false },
      { text := some ((ev q ⟨d.answer.getD []⟩).feedback ++
          " That completes our review session. You answered " ++
          toString (s.correct_answers +
            (if (ev q ⟨d.answer.getD []⟩).is_correct then 1 else 0)) ++
          " out of " ++ toString (s.total_answered + 1) ++ " questions correctly (" ++
          fmt1f (((((s.correct_answers +
            (if (ev q ⟨d.answer.getD []⟩).is_correct then 1 else 0)) : Nat) : ℚ) /
            ((s.total_answered + 1 : Nat) : ℚ)) * 100) ++ "%).")
        session_summary := some ⟨s.correct_answers +
            (if (ev q ⟨d.answer.getD []⟩).is_correct then 1 else 0),
          s.total_answered + 1,
          ((((s.correct_answers +
            (if (ev q ⟨d.answer.getD []⟩).is_correct then 1 else 0)) : Nat) : ℚ) /
            ((s.total_answered + 1 : Nat) : ℚ)) * 100⟩
        intent := some "answer" }, ?_, ?_⟩
    · simp [handle_answer, h1, h2, h3]
    · intro hfalse
      exact absurd hfalse (by simp)

/-- Witness for C8 amended, at a concrete one-question session. -/
theorem c8_answer_reestablishes_bound_witness :
    ∃ post resp,
      handle_answer ⟨some gen0, some ev0, true⟩
        { loadedSession with
            is_reviewing := true
            current_question := some ⟨"Q1"⟩
            num_questions := 1 } dAnswer = .ok (post, resp) ∧
      (post.is_reviewing = true → post.total_answered ≤ post.num_questions) :=
  c8_answer_reestablishes_bound gen0 ev0 true
    { loadedSession with
        is_reviewing := true
        current_question := some ⟨"Q1"⟩
        num_questions := 1 } ⟨"Q1"⟩ dAnswer rfl rfl

end Regee

namespace Regee

/-! ### C10 — frame property of `handle_start_review` -/

/-- A session carrying stale counters and pending-feedback state from a
previous quiz, with documents loaded. -/
def c10Pre : SessionState :=
  { loadedSession with
      total_answered := 4
      correct_answers := 3
      question_history := [(⟨"old"⟩, "a", ⟨true, "fb"⟩)]
      awaiting_feedback := true
      next_question := some ⟨"pending"⟩ }

/-- C10.  With documents loaded and a question generator configured,
`handle_start_review` only writes `is_reviewing` and `current_question`;
counters, history, pending-feedback flags and the stored next question
all carry over unchanged into the newly started session. -/
theorem c10_start_review_frame
    (gen : List String → String → String → Question)
    (ae : Option (Question → String → Evaluation)) (dp : Bool)
    (s : SessionState) (d : IntentData)
    (h : s.documents_loaded = true) :
    ∃ resp,
      handle_start_review ⟨some gen, ae, dp⟩ s d =
        ({ s with
            is_reviewing := true
            current_question := some (gen s.current_topics s.question_type s.difficulty) },
         resp) ∧
      (handle_start_review ⟨some gen, ae, dp⟩ s d).1.total_answered = s.total_answered ∧
      (handle_start_review ⟨some gen, ae, dp⟩ s d).1.correct_answers = s.correct_answers ∧
      (handle_start_review ⟨some gen, ae, dp⟩ s d).1.question_history = s.question_history ∧
      (handle_start_review ⟨some gen, ae, dp⟩ s d).1.awaiting_feedback = s.awaiting_feedback ∧
      (handle_start_review ⟨some gen, ae, dp⟩ s d).1.next_question = s.next_question ∧
      (handle_start_review ⟨some gen, ae, dp⟩ s d).1.question_type = s.question_type ∧
      (handle_start_review ⟨some gen, ae, dp⟩ s d).1.num_questions = s.num_questions ∧
      (handle_start_review ⟨some gen, ae, dp⟩ s d).1.current_topics = s.current_topics ∧
      (handle_start_review ⟨some gen, ae, dp⟩ s d).1.difficulty = s.difficulty ∧
      (handle_start_review ⟨some gen, ae, dp⟩ s d).1.last_evaluation = s.last_evaluation ∧
      (handle_start_review ⟨some gen, ae, dp⟩ s d).1.is_reviewing = true ∧
      (handle_start_review ⟨some gen, ae, dp⟩ s d).1.current_question =
        some (gen s.current_topics s.question_type s.difficulty) := by
  have key : handle_start_review ⟨some gen, ae, dp⟩ s d =
      ({ s with
          is_reviewing := true
          current_question := some (gen s.current_topics s.question_type s.difficulty) },
       { text := some ("Let" ++ ap ++ "s start the review session.\n\n " ++
           (gen s.current_topics s.question_type s.difficulty).question)
         question := some (gen s.current_topics s.question_type s.difficulty)
         intent := some "start_review" }) := by
    simp [handle_start_review, h]
  exact ⟨_, key, by rw [key], by rw [key], by rw [key], by rw [key], by rw [key],
    by rw [key], by rw [key], by rw [key], by rw [key], by rw [key], by rw [key],
    by rw [key]⟩

/-- Witness for C10, at a concrete loaded session with stale counters
and a pending next question. -/
theorem c10_start_review_frame_witness :
    ∃ resp,
      handle_start_review ⟨some gen0, some ev0, true⟩ c10Pre { intent := "start_review", text := ("start").data } =
        ({ c10Pre with
            is_reviewing := true
            current_question := some (gen0 c10Pre.current_topics c10Pre.question_type c10Pre.difficulty) },
         resp) ∧
      (handle_start_review ⟨some gen0, some ev0, true⟩ c10Pre { intent := "start_review", text := ("start").data }).1.total_answered = c10Pre.total_answered ∧
      (handle_start_review ⟨some gen0, some ev0, true⟩ c10Pre { intent := "start_review", text := ("start").data }).1.correct_answers = c10Pre.correct_answers ∧
      (handle_start_review ⟨some gen0, some ev0, true⟩ c10Pre { intent := "start_review", text := ("start").data }).1.question_history = c10Pre.question_history ∧
      (handle_start_review ⟨some gen0, some ev0, true⟩ c10Pre { intent := "start_review", text := ("start").data }).1.awaiting_feedback = c10Pre.awaiting_feedback ∧
      (handle_start_review ⟨some gen0, some ev0, true⟩ c10Pre { intent := "start_review", text := ("start").data }).1.next_question = c10Pre.next_question ∧
      (handle_start_review ⟨some gen0, some ev0, true⟩ c10Pre { intent := "start_review", text := ("start").data }).1.question_type = c10Pre.question_type ∧
      (handle_start_review ⟨some gen0, some ev0, true⟩ c10Pre { intent := "start_review", text := ("start").data }).1.num_questions = c10Pre.num_questions ∧
      (handle_start_review ⟨some gen0, some ev0, true⟩ c10Pre { intent := "start_review", text := ("start").data }).1.current_topics = c10Pre.current_topics ∧
      (handle_start_review ⟨some gen0, some ev0, true⟩ c10Pre { intent := "start_review", text := ("start").data }).1.difficulty = c10Pre.difficulty ∧
      (handle_start_review ⟨some gen0, some ev0, true⟩ c10Pre { intent := "start_review", text := ("start").data }).1.last_evaluation = c10Pre.last_evaluation ∧
      (handle_start_review ⟨some gen0, some ev0, true⟩ c10Pre { intent := "start_review", text := ("start").data }).1.is_reviewing = true ∧
      (handle_start_review ⟨some gen0, some ev0, true⟩ c10Pre { intent := "start_review", text := ("start").data }).1.current_question =
        some (gen0 c10Pre.current_topics c10Pre.question_type c10Pre.difficulty) :=
  c10_start_review_frame gen0 (some ev0) true c10Pre { intent := "start_review", text := ("start").data } rfl

end Regee

namespace Regee

/-! ### C5 — universal `answer` fallback of `classify` -/

theorem detectPairs_nil (dom : Option String) (l : List Str)
    (h : ∀ s ∈ l, matchIntent s dom = none) : detectPairs dom l = [] := by
  induction l with
  | nil => rfl
  | cons s rest ih =>
    have hs := h s (List.mem_cons_self s rest)
    have hrest := ih (fun t ht => h t (List.mem_cons_of_mem s ht))
    simp [detectPairs, hs, hrest]

/-- C5.  `classify` is a total function of the utterance (the embedding
is a plain function, mirroring the source, whose only partial Python
operations — `max` over the always-4-element context dict, `group(i)` on
successful matches, `int(..)` guarded by `isdigit`/`try` — cannot fail),
returning exactly one primary intent plus an ordered list of additional
intents.  When none of its detectors fire — no fast-path number match,
no ≥2 compound settings, no per-clause pattern match, and neither the
`out_of_scope` nor the `unknown` detector matches — the result is the
default `answer` intent carrying the whole utterance as its payload,
with no additional intents. -/
theorem c5_classify_answer_fallback (text : Str)
    (h1 : checkNumQuestions text = none)
    (h2 : (checkCompoundSettings text).length ≤ 1)
    (h3 : ∀ s ∈ splitIntoSentences text,
      matchIntent s (maxKeyFirst (determineContext text)) = none)
    (h4 : oosPatterns.any (fun r => reTest true r text) = false)
    (h5 : unknownPatterns.any (fun r => reTest true r text) = false) :
    classify text = answerDefault text := by
  have h2' : ¬ 1 < (checkCompoundSettings text).length := not_lt.mpr h2
  have hpairs : detectPairs (maxKeyFirst (determineContext text))
      (splitIntoSentences text) = [] := detectPairs_nil _ _ h3
  simp [classify, h1, h2', hpairs, h4, h5]

/-- Witness for C5 at the utterance "hi", on which no detector fires. -/
theorem c5_classify_answer_fallback_witness :
    classify ("hi").data = answerDefault ("hi").data :=
  c5_classify_answer_fallback ("hi").data (by decide) (by decide) (by decide)
    (by decide) (by decide)

end Regee

namespace Regee

/-! ### C6 — compound settings: difficulty outranks question type -/

def c6Text : Str := ("set difficulty to hard and question type to free text").data

/-- C6.  Classifying "set difficulty to hard and question type to free
text" takes the compound-settings fast path: the primary intent is
`set_difficulty` with `difficulty = "hard"` (rank 1 in the fixed setting
priority), and the additional intents are exactly `set_question_type`
with `question_type = "free-text"`. -/
theorem c6_compound_settings_priority :
    classify c6Text =
      ⟨{ intent := "set_difficulty", difficulty := some "hard", text := c6Text },
       [{ intent := "set_question_type", question_type := some "free-text",
          text := c6Text }]⟩ := by
  decide

/-! ### C7 — fast-path numeric extraction -/

def c7DigitText : Str := ("set 10 questions").data

def c7WordText : Str := ("set twenty-five questions").data

/-- C7.  "set 10 questions" resolves through the digit fast path to
`set_num_questions` with `num_questions = 10`, and "set twenty-five
questions" through the word-number path (hyphenated tens-and-ones) to
`num_questions = 25`; neither leaves additional intents. -/
theorem c7_fast_path_num_questions :
    classify c7DigitText =
      ⟨{ intent := "set_num_questions", num_questions := some 10,
         text := c7DigitText }, []⟩ ∧
    classify c7WordText =
      ⟨{ intent := "set_num_questions", num_questions := some 25,
         text := c7WordText }, []⟩ := by
  constructor
  · decide
  · decide

/-! ### C9 — topic extraction for "focus on .." -/

def c9Text : Str := ("focus on neural networks and data science").data

/-- C9 counterexample.  Classifying "focus on neural networks and data
science" does not produce a `set_topic` intent at all: none of the
`set_topic` matching patterns (all of which require the literal word
"topic" or "subject") fires, no other detector fires, and the utterance
falls through to the universal `answer` fallback with no additional
intents. -/
theorem c9_topic_extraction_counterexample :
    classify c9Text = answerDefault c9Text ∧
    (classify c9Text).data.intent = "answer" ∧
    (classify c9Text).data.topics = none ∧
    (classify c9Text).additional_intents = [] := by
  have h : classify c9Text = answerDefault c9Text := by decide
  exact ⟨h, by rw [h]; rfl, by rw [h]; rfl, by rw [h]; rfl⟩

/-- C9 amended.  Full classification of the utterance yields the
`answer` fallback (no `set_topic` pattern matches the clause), while the
per-intent field extractor, applied to this clause under the `set_topic`
intent, does extract exactly the two topics ["neural networks", "data
science"] (split on "and", trimmed). -/
theorem c9_topic_extraction_amended :
    classify c9Text = answerDefault c9Text ∧
    (extractIntentData c9Text "set_topic").topics =
      some [("neural networks").data, ("data science").data] ∧
    (extractIntentData c9Text "set_topic").topic_extraction_failed = false := by
  have h : extractIntentData c9Text "set_topic" =
      { intent := "set_topic", text := c9Text,
        topics := some [("neural networks").data, ("data science").data] } := by decide
  exact ⟨by decide, by rw [h], by rw [h]⟩

end Regee
